import Mathlib

/-!
# Single-sided two-way ranging engine (`ssRanger.c`, `ssInit.c`)

A shallow embedding of the initiator side of the ranger: the two frame buffers,
the file-scope session variables, the interrupt-side receive handler, the
deferred range event handler, the timeout handler and `ssRangeTo`.

Conventions of the embedding

* a `byte` is a `Nat` kept below 256 by every store the engine makes, a `wyde`
  (16 bit) and a `UInt32` are `Nat`s reduced modulo `2^16` and `2^32` where the
  C assignment truncates, an `Int32` is an `Int`;
* multi-byte stores and loads through a cast pointer are little-endian;
* `float` and `double` arithmetic is read over the rationals;
* a result sink is an address into the caller's storage (`none` is `NULL`);
* the engine's globals are the fields of `State`, passed explicitly.
-/

namespace SsRanger

/-! ## Constants of `ssRange.h` -/

/-- Modelled from the spec: `ssRange.h` is not part of the sources; byte 2 of the
common header is the sequence number. -/
def MSG_SEQ_IDX : Nat := 2

/-- Modelled from the spec: `ssRange.h` is not part of the sources; bytes 5/6 of
the common header are the destination address. -/
def MSG_DST_IDX : Nat := 5

/-- Modelled from the spec: `ssRange.h` is not part of the sources; bytes 7/8 of
the common header are the source address. -/
def MSG_SRC_IDX : Nat := 7

/-- Modelled from the spec: `ssRange.h` is not part of the sources; the Request is
the 10-byte common header with no payload. -/
def sizeof_ssRangeRequestMsg : Nat := 10

/-- Modelled from the spec: `ssRange.h` is not part of the sources; the Response is
the 10-byte common header plus 8 bytes of payload. -/
def sizeof_ssRangeResponsMsg : Nat := 18

/-- Modelled from the spec: `ssRange.h` is not part of the sources; bytes 10..13 of
the Response hold the request's time of arrival. -/
def RESP_MSG_POLL_RX_TS_IDX : Nat := 10

/-- Modelled from the spec: `ssRange.h` is not part of the sources; bytes 14..17 of
the Response hold the response's time of transmission. -/
def RESP_MSG_RESP_TX_TS_IDX : Nat := 14

/-! ## Memory access helpers -/

/-- Read of `buf[i]`. -/
def byteAt (buf : List Nat) (i : Nat) : Nat := buf.getD i 0

/-- Load `*((wyde *)&buf[i])` (and `*((word *)&buf[i])`, an address being 16 bits),
little-endian. -/
def rd16 (buf : List Nat) (i : Nat) : Nat :=
  byteAt buf i + 256 * byteAt buf (i + 1)

/-- Load of a `UInt32` by `memcpy(&x, &buf[i], 4)`, little-endian. -/
def rd32 (buf : List Nat) (i : Nat) : Nat :=
  byteAt buf i + 256 * byteAt buf (i + 1) + 65536 * byteAt buf (i + 2)
    + 16777216 * byteAt buf (i + 3)

/-- Store `*((wyde *)&arr[i]) = v`, little-endian; `v` is truncated to 16 bits. -/
def wr16 (arr : List Nat) (i : Nat) (v : Nat) : List Nat :=
  (arr.set i (v % 256)).set (i + 1) (v / 256 % 256)

/-- Conversion of a `UInt32` value to `Int32` (two's complement). -/
def toInt32 (u : Nat) : Int :=
  if u % 4294967296 < 2147483648 then (u % 4294967296 : Nat)
  else ((u % 4294967296 : Nat) : Int) - 4294967296

/-- The `UInt32` subtraction `a - b`. -/
def sub32 (a b : Nat) : Nat :=
  (((a : Int) - (b : Int)) % 4294967296).toNat

/-! ## Data model -/

/-- The record `_ssRangeData` a result sink points to. -/
structure _ssRangeData where
  ranger : Nat
  rangee : Nat
  seq : Nat
  t1 : Nat
  t2 : Nat
  t3 : Nat
  t4 : Nat
  cor : ℚ
  range : ℚ
deriving DecidableEq

/-- The pointer type `ssRangeData`: `none` is `NULL`, `some a` the address of a
caller's record. -/
abbrev ssRangeData : Type := Option Nat

/-- What `memset(rangeResult, 0, sizeof(_ssRangeData))` leaves in the record. -/
def zeroRecord : _ssRangeData :=
  { ranger := 0, rangee := 0, seq := 0, t1 := 0, t2 := 0, t3 := 0, t4 := 0,
    cor := 0, range := 0 }

/-- What the radio registers hold when a frame has been received: the transmit
timestamp of the last sent frame, the receive timestamp of this frame and the raw
carrier integrator (clock offset) sample. -/
structure RadioRegs where
  txTimestamp : Nat
  rxTimestamp : Nat
  clockOffset : ℚ

/-- The globals of `ssRanger.c` and `ssInit.c`; `dwRadioAddr` is
`((Dw3000)dwRadio)->addr`, `rangeTimer` tells whether the timeout timer is
running, `rangeEvent` lists the posted range events not yet delivered, oldest
first, each with the bytes of its buffer and the length it was posted with, `sent`
lists the frames handed to the radio by `RangeTo`, and `mem` is the callers'
storage the result sinks point into. The code posts the address of the buffer:
the bytes recorded with an event are what its handler reads as long as no later
frame is written into that buffer before the event is handled; `landed` gives
the pending events when one is. -/
structure State where
  expectedResponse : List Nat
  ssRangeRequestMsg : List Nat
  seq : Nat
  tof : ℚ
  distance : ℚ
  rtd_init : Int
  rtd_resp : Int
  poll_tx_ts : Nat
  resp_rx_ts : Nat
  poll_rx_ts : Nat
  resp_tx_ts : Nat
  clockOffsetRatio : ℚ
  rangeResult : ssRangeData
  rangeReady : Nat
  timeout : Nat
  rangeTimer : Bool
  rangeEvent : List (List Nat × Nat)
  dwRadioAddr : Nat
  sent : List (List Nat)
  mem : Nat → _ssRangeData

/-- The state the static initialisers give, over the callers' storage `mem`. -/
def initial (mem : Nat → _ssRangeData) : State :=
  { expectedResponse := [0x41, 0x88, 0, 0xCA, 0xDE, 0x56, 0x45, 0x57, 0x41, 0xE1]
    ssRangeRequestMsg := [0x41, 0x88, 0, 0xCA, 0xDE, 0x57, 0x41, 0x56, 0x45, 0xE0]
    seq := 0
    tof := 0
    distance := 0
    rtd_init := 0
    rtd_resp := 0
    poll_tx_ts := 0
    resp_rx_ts := 0
    poll_rx_ts := 0
    resp_tx_ts := 0
    clockOffsetRatio := 0
    rangeResult := none
    rangeReady := 1
    timeout := 0
    rangeTimer := false
    rangeEvent := []
    dwRadioAddr := 0
    sent := []
    mem := mem }

/-! ## `ssInit.c` -/

/-- The node address `((word) serial[14]) << 8 | serial[15]`, assigned to a
`wyde`. -/
def nodeAddr (serial : List Nat) : Nat :=
  ((byteAt serial 14 <<< 8) ||| byteAt serial 15) % 65536

/-- The function `ssInit` (with `ssRangerInit`): a radio whose type name does not
start with `DW` is fatal; otherwise the node address made of the last two bytes
of the serial number is stored in both frame buffers and in the radio. -/
def ssInit (name : List Char) (serial : List Nat) (st : State) :
    Except String State :=
  if !(name.getD 0 (Char.ofNat 0) == 'D' && name.getD 1 (Char.ofNat 0) == 'W') then
    Except.error "ranging needs a range capable radio!"
  else
    let addr := nodeAddr serial
    Except.ok
      { st with
        expectedResponse := wr16 st.expectedResponse MSG_DST_IDX addr
        ssRangeRequestMsg := wr16 st.ssRangeRequestMsg MSG_SRC_IDX addr
        dwRadioAddr := addr }

/-! ## `ssRanger.c` -/

/-- The handler `rangeTimerHandler` of the timeout timer. -/
def rangeTimerHandler (st : State) : State :=
  let st1 := { st with timeout := 1 }
  let st2 :=
    match st1.rangeResult with
    | some a => { st1 with mem := Function.update st1.mem a zeroRecord }
    | none => st1
  { st2 with rangeReady := 1 }

/-- The handler `rangeEventHandler(e, buf, len)` of the deferred range event, with
`USE_DISTANCE` defined. `timeUnit` is `DWT_TIME_UNITS` and `light` is
`SPEED_OF_LIGHT`, both declared outside the sources. -/
def rangeEventHandler (timeUnit light : ℚ) (st : State) (buf : List Nat)
    (_len : Nat) : State :=
  let poll_rx_ts := rd32 buf RESP_MSG_POLL_RX_TS_IDX
  let resp_tx_ts := rd32 buf RESP_MSG_RESP_TX_TS_IDX
  let rtd_init := toInt32 (sub32 st.resp_rx_ts st.poll_tx_ts)
  let rtd_resp := toInt32 (sub32 resp_tx_ts poll_rx_ts)
  let tof :=
    (((rtd_init : ℚ) - (rtd_resp : ℚ) * (1 - st.clockOffsetRatio)) / 2) * timeUnit
  let distance := tof * light
  let st1 :=
    { st with
      poll_rx_ts := poll_rx_ts
      resp_tx_ts := resp_tx_ts
      rtd_init := rtd_init
      rtd_resp := rtd_resp
      tof := tof
      distance := distance }
  let st2 :=
    match st1.rangeResult with
    | some a =>
      { st1 with
        mem := Function.update st1.mem a
          { ranger := rd16 buf MSG_DST_IDX
            rangee := rd16 buf MSG_SRC_IDX
            seq := byteAt buf MSG_SEQ_IDX
            t1 := st1.poll_tx_ts
            t2 := st1.poll_rx_ts
            t3 := st1.resp_tx_ts
            t4 := st1.resp_rx_ts
            cor := st1.clockOffsetRatio
            range := st1.distance } }
    | none => st1
  { st2 with rangeReady := 1 }

/-- The test of `rxReadyHandler` that qualifies a received frame: the first
`sizeof_ssRangeRequestMsg` bytes of the buffer compare equal to
`expectedResponse`, or the length is that of a Response, the destination is the
radio's address or `0xFFFF`, and byte 9 is `0xE1`. -/
def qualifies (st : State) (buf : List Nat) (len : Nat) : Bool :=
  (buf.take sizeof_ssRangeRequestMsg
      == st.expectedResponse.take sizeof_ssRangeRequestMsg)
  || (len == sizeof_ssRangeResponsMsg
      && (rd16 buf MSG_DST_IDX == st.dwRadioAddr || rd16 buf MSG_DST_IDX == 0xFFFF)
      && byteAt buf 9 == 0xE1)

/-- The delegate `rxReadyHandler(buf, len)`, run in the interrupt handler for each
received frame; `regs` is what the radio reports at that moment. The device
timestamps are stored in `UInt32` variables, their high byte discarded. The
posted event is recorded with the bytes the buffer holds now; the code passes the
buffer's address, see `landed` for a buffer that is rewritten before the event
is handled. -/
def rxReadyHandler (regs : RadioRegs) (st : State) (buf : List Nat) (len : Nat) :
    State :=
  if qualifies st buf len then
    { st with
      poll_tx_ts := regs.txTimestamp % 4294967296
      resp_rx_ts := regs.rxTimestamp % 4294967296
      clockOffsetRatio := regs.clockOffset / 67108864
      rangeEvent := st.rangeEvent ++ [(buf, len)] }
  else st

/-- Which exit `ssRangeTo` takes: the request is refused because a session is in
progress, the wait ends on the timeout flag, the wait ends on the readiness flag,
or neither flag is set after the wait. -/
inductive Outcome where
  | rejected
  | timedOut
  | ready
  | silent
deriving DecidableEq

/-- The part of `ssRangeTo` after the `rangeReady` test and up to the wait loop:
target and sequence number are stamped in both buffers, the flags are reset, the
sink is recorded, the request is handed to the radio, the timer is started. -/
def startRange (st : State) (target : Nat) (result : ssRangeData) : State :=
  let req := wr16 st.ssRangeRequestMsg MSG_DST_IDX target
  let exp := wr16 st.expectedResponse MSG_SRC_IDX target
  let req := req.set MSG_SEQ_IDX st.seq
  let exp := exp.set MSG_SEQ_IDX st.seq
  { st with
    ssRangeRequestMsg := req
    expectedResponse := exp
    seq := (st.seq + 1) % 256
    timeout := 0
    rangeReady := 0
    rangeResult := result
    sent := st.sent ++ [req.take sizeof_ssRangeRequestMsg]
    rangeTimer := true }

/-- Work the scheduler or the radio interrupt may carry out while `ssRangeTo`
yields: a frame arrives, the oldest pending range event is delivered, the timer
expires. -/
inductive Activation where
  | rx (regs : RadioRegs) (buf : List Nat) (len : Nat)
  | event
  | timer

/-- One activation: `rxReadyHandler` for a frame, `rangeEventHandler` for the
oldest pending range event, `rangeTimerHandler` when the running timer expires. -/
def service (timeUnit light : ℚ) (st : State) : Activation → State
  | Activation.rx regs buf len => rxReadyHandler regs st buf len
  | Activation.event =>
    match st.rangeEvent with
    | [] => st
    | (buf, len) :: rest =>
      rangeEventHandler timeUnit light { st with rangeEvent := rest } buf len
  | Activation.timer => if st.rangeTimer then rangeTimerHandler st else st

/-- One call of `EventYield()`: the activations of this pass, in order. -/
def EventYield (timeUnit light : ℚ) (st : State) (pass : List Activation) : State :=
  pass.foldl (service timeUnit light) st

/-- The loop `while (!(timeout || rangeReady)) EventYield();` over the passes the
scheduler will make; `none` when the passes run out with both flags clear. -/
def await (timeUnit light : ℚ) : State → List (List Activation) → Option State
  | st, [] => if st.timeout ≠ 0 ∨ st.rangeReady ≠ 0 then some st else none
  | st, pass :: rest =>
    if st.timeout ≠ 0 ∨ st.rangeReady ≠ 0 then some st
    else await timeUnit light (EventYield timeUnit light st pass) rest

/-- The part of `ssRangeTo` after the wait loop: the timer is stopped and the exit
is chosen, the timeout flag first. -/
def finishRange (st : State) : Outcome × State :=
  let st1 := { st with rangeTimer := false }
  if st1.timeout ≠ 0 then (Outcome.timedOut, st1)
  else if st1.rangeReady ≠ 0 then (Outcome.ready, st1)
  else (Outcome.silent, st1)

/-- The function `ssRangeTo(radio, target, result)`, over the passes the scheduler
makes while it waits. -/
def ssRangeTo (timeUnit light : ℚ) (st : State) (target : Nat)
    (result : ssRangeData) (sched : List (List Activation)) :
    Option (Outcome × State) :=
  if st.rangeReady = 0 then some (Outcome.rejected, st)
  else
    match await timeUnit light (startRange st target result) sched with
    | none => none
    | some st1 => some (finishRange st1)

/-- What can happen to the engine, one step at a time: `ssRangeTo` is entered (and
refused, or runs up to its wait loop), an activation is serviced, or a waiting
`ssRangeTo` whose wait is over stops the timer and returns. -/
inductive Step where
  | call (target : Nat) (result : ssRangeData)
  | act (a : Activation)
  | leave

/-- The effect of one step. -/
def step (timeUnit light : ℚ) (st : State) : Step → State
  | Step.call target result =>
    if st.rangeReady = 0 then st else startRange st target result
  | Step.act a => service timeUnit light st a
  | Step.leave =>
    if st.timeout ≠ 0 ∨ st.rangeReady ≠ 0 then (finishRange st).2 else st

/-- The effect of a sequence of steps. -/
def exec (timeUnit light : ℚ) (st : State) (steps : List Step) : State :=
  steps.foldl (step timeUnit light) st

/-- The states the engine can be in after a successful `ssInit` on a device with
the given serial number: the state `ssInit` leaves, and every state one step
later. -/
inductive Reachable (timeUnit light : ℚ) (serial : List Nat) : State → Prop where
  | init (name : List Char) (mem : Nat → _ssRangeData) (st0 : State) :
      ssInit name serial (initial mem) = Except.ok st0 →
      Reachable timeUnit light serial st0
  | next (st : State) (s : Step) :
      Reachable timeUnit light serial st →
      Reachable timeUnit light serial (step timeUnit light st s)

/-- The sequence bytes found in the Request frame right after each accepted
`ssRangeTo` entry of a run, in order. -/
def stamped (timeUnit light : ℚ) : State → List Step → List Nat
  | _, [] => []
  | st, Step.call target result :: rest =>
    if st.rangeReady = 0 then
      stamped timeUnit light (step timeUnit light st (Step.call target result)) rest
    else
      byteAt (step timeUnit light st (Step.call target result)).ssRangeRequestMsg
          MSG_SEQ_IDX
        :: stamped timeUnit light (step timeUnit light st (Step.call target result)) rest
  | st, s :: rest => stamped timeUnit light (step timeUnit light st s) rest

/-- The two frame buffers have the shape `ssInit` and `ssRangeTo` keep: the fixed
header bytes, one sequence byte `s` in both, the node address `addr` as source of
the request and destination of the template, one address `d0 d1` as destination
of the request and source of the template; the radio holds `addr`. -/
def Framed (addr : Nat) (st : State) : Prop :=
  ∃ s d0 d1,
    st.ssRangeRequestMsg
        = [0x41, 0x88, s, 0xCA, 0xDE, d0, d1, addr % 256, addr / 256 % 256, 0xE0]
    ∧ st.expectedResponse
        = [0x41, 0x88, s, 0xCA, 0xDE, addr % 256, addr / 256 % 256, d0, d1, 0xE1]
    ∧ st.dwRadioAddr = addr

/-- A frame is received (`rxReadyHandler` in the interrupt) and the range event, if
one was posted for it, is handled next (`rangeEventHandler` with the buffer and
length the event carries). -/
def receiveAndHandle (timeUnit light : ℚ) (regs : RadioRegs) (st : State)
    (buf : List Nat) (len : Nat) : State :=
  if qualifies st buf len then
    rangeEventHandler timeUnit light (rxReadyHandler regs st buf len) buf len
  else rxReadyHandler regs st buf len

/-- The activation brings no frame that `rxReadyHandler` accepts in state `st`
(event deliveries and timer expiries pass this test). -/
def unanswered (st : State) : Activation → Bool
  | Activation.rx _ buf len => !qualifies st buf len
  | Activation.event => true
  | Activation.timer => true

/-- The activation brings neither a frame that `rxReadyHandler` accepts in state
`st` nor a timer expiry. -/
def idle (st : State) : Activation → Bool
  | Activation.rx _ buf len => !qualifies st buf len
  | Activation.event => true
  | Activation.timer => false

/-- The two flags agree: the readiness flag holds 0 or 1, and it holds 1 whenever
the timeout flag is set. -/
def FlagsOk (st : State) : Prop :=
  (st.timeout ≠ 0 → st.rangeReady = 1) ∧ (st.rangeReady = 0 ∨ st.rangeReady = 1)

/-- A serial number whose last two bytes are `0x12 0x34`. -/
def demoSerial : List Nat := [0, 0, 0, 0, 0, 0, 0, 0, 0, 0, 0, 0, 0, 0, 0x12, 0x34]

/-- Callers' storage holding zeroed records. -/
def demoMem : Nat → _ssRangeData := fun _ => zeroRecord

/-- The state `ssInit` leaves on a `DW3000` radio with serial `demoSerial`. -/
def demoInit : State :=
  { initial demoMem with
    expectedResponse := [0x41, 0x88, 0, 0xCA, 0xDE, 0x34, 0x12, 0x57, 0x41, 0xE1]
    ssRangeRequestMsg := [0x41, 0x88, 0, 0xCA, 0xDE, 0x57, 0x41, 0x34, 0x12, 0xE0]
    dwRadioAddr := 0x1234 }

/-- The state `demoInit` with a session to `0x5678` in flight, sink at address 0. -/
def demoFlight : State := startRange demoInit 0x5678 (some 0)

/-- A run with three `ssRangeTo` entries: one accepted, one refused while the first
is in flight, and after the timeout of the first a second accepted one. -/
def demoSteps : List Step :=
  [Step.call 0x5678 (some 0), Step.call 0x9ABC (some 1), Step.act Activation.timer,
    Step.leave, Step.call 0x5678 none]

/-- An 18-byte Response to the session of `demoFlight`: the header is the expected
template, the payload encodes `poll_rx_ts = 0x1050` and `resp_tx_ts = 0x1390`. -/
def demoResponse : List Nat :=
  [0x41, 0x88, 0, 0xCA, 0xDE, 0x34, 0x12, 0x78, 0x56, 0xE1,
    0x50, 0x10, 0, 0, 0x90, 0x13, 0, 0]

/-- A run of `n` sessions to `0x5678` that each end on the timeout. -/
def timedOutSessions : Nat → List Step
  | 0 => []
  | n + 1 =>
    Step.call 0x5678 none :: Step.act Activation.timer :: Step.leave
      :: timedOutSessions n

/-- The state after `ssInit` and seven timed-out sessions: idle, sequence counter
at 7. -/
def demoSeventh : State := exec 1 1 demoInit (timedOutSessions 7)

/-- An 18-byte Response to a session from `0x1234` to `0x5678` with sequence
number 7; the payload encodes `poll_rx_ts = 0x1050` and `resp_tx_ts = 0x1390`. -/
def demoResponse7 : List Nat :=
  [0x41, 0x88, 7, 0xCA, 0xDE, 0x34, 0x12, 0x78, 0x56, 0xE1,
    0x50, 0x10, 0, 0, 0x90, 0x13, 0, 0]

/-- Callers' storage whose records hold the result of an earlier range. -/
def demoUsedMem : Nat → _ssRangeData := fun _ =>
  { ranger := 0x1111, rangee := 0x2222, seq := 3, t1 := 1, t2 := 2, t3 := 3, t4 := 4,
    cor := 0, range := 1 }

/-- The state `demoInit` over the storage `demoUsedMem`. -/
def demoUsed : State := { demoInit with mem := demoUsedMem }

/-- A Request frame (function code `0xE0`) from another node. -/
def demoRequest : List Nat := [0x41, 0x88, 9, 0xCA, 0xDE, 0x34, 0x12, 0xBC, 0x9A, 0xE0]

/-- Two scheduler passes with no response: a stray Request arrives in the first,
the timer expires in the second. -/
def demoSilence : List (List Activation) :=
  [[Activation.rx ⟨0x1000, 0x1400, 0⟩ demoRequest 10, Activation.event],
    [Activation.event, Activation.timer]]

/-- The state in which `ssRangeTo 1 1 demoUsed 0x5678 (some 0) demoSilence`
returns. -/
def demoTimedOut : State :=
  (finishRange (rangeTimerHandler (startRange demoUsed 0x5678 (some 0)))).2

/-- One scheduler pass in which the Response arrives, the timer expiry is handled,
and then the range event of the Response is handled. -/
def demoLate : List (List Activation) :=
  [[Activation.rx ⟨0x1000, 0x1400, 0⟩ demoResponse 18, Activation.timer,
    Activation.event]]

/-- A frame that is only the 10-byte header of `demoResponse`, with no payload. -/
def demoHeader : List Nat := [0x41, 0x88, 0, 0xCA, 0xDE, 0x34, 0x12, 0x78, 0x56, 0xE1]

/-- An 18-byte Response addressed to node `0x1234` from node `0x5678` whose sequence
byte is 5. -/
def demoWrongSeq : List Nat :=
  [0x41, 0x88, 5, 0xCA, 0xDE, 0x34, 0x12, 0x78, 0x56, 0xE1,
    0x50, 0x10, 0, 0, 0x90, 0x13, 0, 0]

/-- A second 18-byte Response to the session of `demoFlight`, whose payload encodes
`poll_rx_ts = 0x2050` and `resp_tx_ts = 0x2390`. -/
def demoSecond : List Nat :=
  [0x41, 0x88, 0, 0xCA, 0xDE, 0x34, 0x12, 0x78, 0x56, 0xE1,
    0x50, 0x20, 0, 0, 0x90, 0x23, 0, 0]

/-- The state after `ssInit`, a session to `0x5678` with the sink at address 0 that
ended on the timeout and returned, and the late arrival of its Response: the
engine is idle and the range event of the late Response is pending. -/
def demoStale : State :=
  exec 1 1 demoInit
    [Step.call 0x5678 (some 0), Step.act Activation.timer, Step.leave,
      Step.act (Activation.rx ⟨0x1000, 0x1400, 0⟩ demoResponse 18)]

theorem ssInit_demo :
    ssInit ['D', 'W', '3', '0', '0', '0'] demoSerial (initial demoMem)
      = Except.ok demoInit := by
  rfl

theorem reachable_demoInit (timeUnit light : ℚ) :
    Reachable timeUnit light demoSerial demoInit :=
  Reachable.init _ _ _ ssInit_demo

theorem reachable_exec (timeUnit light : ℚ) (serial : List Nat) (steps : List Step) :
    ∀ st, Reachable timeUnit light serial st →
      Reachable timeUnit light serial (exec timeUnit light st steps) := by
  induction steps with
  | nil => intro st h; exact h
  | cons s rest ih =>
    intro st h
    exact ih _ (Reachable.next st s h)

theorem rangeTimerHandler_frames (st : State) :
    (rangeTimerHandler st).ssRangeRequestMsg = st.ssRangeRequestMsg
    ∧ (rangeTimerHandler st).expectedResponse = st.expectedResponse
    ∧ (rangeTimerHandler st).dwRadioAddr = st.dwRadioAddr
    ∧ (rangeTimerHandler st).seq = st.seq
    ∧ (rangeTimerHandler st).sent = st.sent := by
  unfold rangeTimerHandler
  cases h : st.rangeResult <;> simp [h]

theorem rangeEventHandler_frames (timeUnit light : ℚ) (st : State) (buf : List Nat)
    (len : Nat) :
    (rangeEventHandler timeUnit light st buf len).ssRangeRequestMsg
        = st.ssRangeRequestMsg
    ∧ (rangeEventHandler timeUnit light st buf len).expectedResponse
        = st.expectedResponse
    ∧ (rangeEventHandler timeUnit light st buf len).dwRadioAddr = st.dwRadioAddr
    ∧ (rangeEventHandler timeUnit light st buf len).seq = st.seq
    ∧ (rangeEventHandler timeUnit light st buf len).sent = st.sent := by
  unfold rangeEventHandler
  cases h : st.rangeResult <;> simp [h]

theorem rxReadyHandler_frames (regs : RadioRegs) (st : State) (buf : List Nat)
    (len : Nat) :
    (rxReadyHandler regs st buf len).ssRangeRequestMsg = st.ssRangeRequestMsg
    ∧ (rxReadyHandler regs st buf len).expectedResponse = st.expectedResponse
    ∧ (rxReadyHandler regs st buf len).dwRadioAddr = st.dwRadioAddr
    ∧ (rxReadyHandler regs st buf len).seq = st.seq
    ∧ (rxReadyHandler regs st buf len).sent = st.sent := by
  unfold rxReadyHandler
  split <;> simp

theorem service_frames (timeUnit light : ℚ) (st : State) (a : Activation) :
    (service timeUnit light st a).ssRangeRequestMsg = st.ssRangeRequestMsg
    ∧ (service timeUnit light st a).expectedResponse = st.expectedResponse
    ∧ (service timeUnit light st a).dwRadioAddr = st.dwRadioAddr
    ∧ (service timeUnit light st a).seq = st.seq
    ∧ (service timeUnit light st a).sent = st.sent := by
  cases a with
  | rx regs buf len => exact rxReadyHandler_frames regs st buf len
  | event =>
    cases h : st.rangeEvent with
    | nil => simp [service, h]
    | cons e rest =>
      obtain ⟨buf, len⟩ := e
      simp only [service, h]
      exact rangeEventHandler_frames timeUnit light _ buf len
  | timer =>
    by_cases h : st.rangeTimer = true
    · simp only [service, h, if_true]
      exact rangeTimerHandler_frames st
    · simp [service, h]

theorem leave_frames (timeUnit light : ℚ) (st : State) :
    (step timeUnit light st Step.leave).ssRangeRequestMsg = st.ssRangeRequestMsg
    ∧ (step timeUnit light st Step.leave).expectedResponse = st.expectedResponse
    ∧ (step timeUnit light st Step.leave).dwRadioAddr = st.dwRadioAddr
    ∧ (step timeUnit light st Step.leave).seq = st.seq
    ∧ (step timeUnit light st Step.leave).sent = st.sent := by
  simp only [step, finishRange]
  split_ifs <;> simp

theorem framed_ssInit (name : List Char) (serial : List Nat)
    (mem : Nat → _ssRangeData) (st0 : State)
    (h : ssInit name serial (initial mem) = Except.ok st0) :
    Framed (nodeAddr serial) st0 := by
  unfold ssInit at h
  split at h
  · cases h
  · cases h
    exact ⟨0, 0x57, 0x41, by simp [initial, wr16, MSG_SRC_IDX],
      by simp [initial, wr16, MSG_DST_IDX], rfl⟩

theorem framed_startRange (addr : Nat) (st : State) (target : Nat)
    (result : ssRangeData) (h : Framed addr st) :
    (startRange st target result).ssRangeRequestMsg
        = [0x41, 0x88, st.seq, 0xCA, 0xDE, target % 256, target / 256 % 256,
            addr % 256, addr / 256 % 256, 0xE0]
    ∧ (startRange st target result).expectedResponse
        = [0x41, 0x88, st.seq, 0xCA, 0xDE, addr % 256, addr / 256 % 256,
            target % 256, target / 256 % 256, 0xE1]
    ∧ (startRange st target result).dwRadioAddr = addr := by
  obtain ⟨s, d0, d1, hreq, hexp, haddr⟩ := h
  simp [startRange, hreq, hexp, haddr, wr16, MSG_DST_IDX, MSG_SRC_IDX, MSG_SEQ_IDX]

theorem framed_step (timeUnit light : ℚ) (addr : Nat) (st : State) (s : Step)
    (h : Framed addr st) : Framed addr (step timeUnit light st s) := by
  cases s with
  | call target result =>
    by_cases hr : st.rangeReady = 0
    · simpa [step, hr] using h
    · simp only [step, hr, if_false]
      exact ⟨_, _, _, framed_startRange addr st target result h⟩
  | act a =>
    obtain ⟨s, d0, d1, hreq, hexp, haddr⟩ := h
    obtain ⟨h1, h2, h3, _, _⟩ := service_frames timeUnit light st a
    exact ⟨s, d0, d1, by simpa [step, h1] using hreq, by simpa [step, h2] using hexp,
      by simpa [step, h3] using haddr⟩
  | leave =>
    obtain ⟨s, d0, d1, hreq, hexp, haddr⟩ := h
    obtain ⟨h1, h2, h3, _, _⟩ := leave_frames timeUnit light st
    exact ⟨s, d0, d1, h1.trans hreq, h2.trans hexp, h3.trans haddr⟩

theorem framed_of_reachable (timeUnit light : ℚ) (serial : List Nat) (st : State)
    (h : Reachable timeUnit light serial st) : Framed (nodeAddr serial) st := by
  induction h with
  | init name mem st0 h0 => exact framed_ssInit name serial mem st0 h0
  | next st s _ ih => exact framed_step timeUnit light _ st s ih

theorem nodeAddr_bytes (serial : List Nat) (h14 : byteAt serial 14 < 256)
    (h15 : byteAt serial 15 < 256) :
    nodeAddr serial = 256 * byteAt serial 14 + byteAt serial 15 := by
  unfold nodeAddr
  rw [Nat.shiftLeft_eq, Nat.mul_comm,
    ← Nat.mul_add_lt_is_or (show byteAt serial 15 < 2 ^ 8 from h15)]
  omega

theorem stamped_chain (timeUnit light : ℚ) (addr : Nat) (steps : List Step) :
    ∀ st, Framed addr st →
      List.Chain' (fun a b => b = (a + 1) % 256) (stamped timeUnit light st steps)
      ∧ ∀ x ∈ (stamped timeUnit light st steps).head?, x = st.seq := by
  induction steps with
  | nil => intro st _; simp [stamped]
  | cons s rest ih =>
    intro st hst
    have hnext := framed_step timeUnit light addr st s hst
    obtain ⟨hchain, hhead⟩ := ih _ hnext
    cases s with
    | call target result =>
      by_cases hr : st.rangeReady = 0
      · have hsame : step timeUnit light st (Step.call target result) = st := by
          simp [step, hr]
        rw [hsame] at hchain hhead
        simp only [stamped, hr, if_true, hsame]
        exact ⟨hchain, hhead⟩
      · have hstep : step timeUnit light st (Step.call target result)
            = startRange st target result := by
          simp [step, hr]
        obtain ⟨hreq, _, _⟩ := framed_startRange addr st target result hst
        have hseq : (startRange st target result).seq = (st.seq + 1) % 256 := rfl
        simp only [stamped, hr, if_false]
        rw [hstep] at hchain hhead ⊢
        refine ⟨?_, ?_⟩
        · rw [List.chain'_cons']
          refine ⟨?_, hchain⟩
          intro y hy
          rw [hhead y hy, hseq, hreq]
          simp [byteAt, MSG_SEQ_IDX]
        · intro x hx
          simp only [List.head?_cons, Option.mem_def, Option.some.injEq] at hx
          rw [← hx, hreq]
          simp [byteAt, MSG_SEQ_IDX]
    | act a =>
      obtain ⟨_, _, _, hseq, _⟩ := service_frames timeUnit light st a
      have hseq2 : (step timeUnit light st (Step.act a)).seq = st.seq := hseq
      simp only [stamped]
      exact ⟨hchain, fun x hx => (hhead x hx).trans hseq2⟩
    | leave =>
      obtain ⟨_, _, _, hseq, _⟩ := leave_frames timeUnit light st
      simp only [stamped]
      exact ⟨hchain, fun x hx => (hhead x hx).trans hseq⟩

theorem finishRange_sent (st : State) : (finishRange st).2.sent = st.sent := by
  simp only [finishRange]
  split_ifs <;> rfl

theorem byteAt_take (buf : List Nat) (n i : Nat) (h : i < n) :
    byteAt (buf.take n) i = byteAt buf i := by
  simp [byteAt, List.getElem?_take, h]

theorem qualifies_iff (st : State) (buf : List Nat) (len : Nat) :
    qualifies st buf len = true ↔
      (buf.take 10 = st.expectedResponse.take 10
        ∨ (len = 18 ∧ (rd16 buf 5 = st.dwRadioAddr ∨ rd16 buf 5 = 0xFFFF)
            ∧ byteAt buf 9 = 0xE1)) := by
  simp [qualifies, sizeof_ssRangeRequestMsg, sizeof_ssRangeResponsMsg, MSG_DST_IDX,
    and_assoc]

theorem EventYield_frames (timeUnit light : ℚ) (pass : List Activation) :
    ∀ st, (EventYield timeUnit light st pass).ssRangeRequestMsg = st.ssRangeRequestMsg
      ∧ (EventYield timeUnit light st pass).expectedResponse = st.expectedResponse
      ∧ (EventYield timeUnit light st pass).dwRadioAddr = st.dwRadioAddr
      ∧ (EventYield timeUnit light st pass).seq = st.seq
      ∧ (EventYield timeUnit light st pass).sent = st.sent := by
  induction pass with
  | nil => intro st; simp [EventYield]
  | cons a rest ih =>
    intro st
    obtain ⟨h1, h2, h3, h4, h5⟩ := service_frames timeUnit light st a
    obtain ⟨i1, i2, i3, i4, i5⟩ := ih (service timeUnit light st a)
    simp only [EventYield, List.foldl_cons] at i1 i2 i3 i4 i5 ⊢
    exact ⟨i1.trans h1, i2.trans h2, i3.trans h3, i4.trans h4, i5.trans h5⟩

theorem await_frames (timeUnit light : ℚ) (sched : List (List Activation)) :
    ∀ st st1, await timeUnit light st sched = some st1 →
      st1.ssRangeRequestMsg = st.ssRangeRequestMsg
      ∧ st1.expectedResponse = st.expectedResponse
      ∧ st1.dwRadioAddr = st.dwRadioAddr
      ∧ st1.seq = st.seq
      ∧ st1.sent = st.sent := by
  induction sched with
  | nil =>
    intro st st1 h
    simp only [await] at h
    split at h
    · cases h; simp
    · cases h
  | cons pass rest ih =>
    intro st st1 h
    simp only [await] at h
    split at h
    · cases h; simp
    · obtain ⟨i1, i2, i3, i4, i5⟩ := ih _ _ h
      obtain ⟨h1, h2, h3, h4, h5⟩ := EventYield_frames timeUnit light pass st
      exact ⟨i1.trans h1, i2.trans h2, i3.trans h3, i4.trans h4, i5.trans h5⟩

theorem toInt32_sub32 (a b : Nat) (h : ((a : Int) - b) % 4294967296 < 2147483648) :
    toInt32 (sub32 a b) = ((a : Int) - b) % 4294967296 := by
  unfold toInt32 sub32
  split <;> omega

theorem rangeEventHandler_calc (timeUnit light : ℚ) (st : State) (buf : List Nat)
    (len : Nat) :
    (rangeEventHandler timeUnit light st buf len).clockOffsetRatio = st.clockOffsetRatio
    ∧ (rangeEventHandler timeUnit light st buf len).rtd_init
        = toInt32 (sub32 st.resp_rx_ts st.poll_tx_ts)
    ∧ (rangeEventHandler timeUnit light st buf len).rtd_resp
        = toInt32 (sub32 (rd32 buf RESP_MSG_RESP_TX_TS_IDX)
            (rd32 buf RESP_MSG_POLL_RX_TS_IDX))
    ∧ (rangeEventHandler timeUnit light st buf len).tof
        = (((toInt32 (sub32 st.resp_rx_ts st.poll_tx_ts) : ℚ)
            - (toInt32 (sub32 (rd32 buf RESP_MSG_RESP_TX_TS_IDX)
                (rd32 buf RESP_MSG_POLL_RX_TS_IDX)) : ℚ)
              * (1 - st.clockOffsetRatio)) / 2) * timeUnit
    ∧ (rangeEventHandler timeUnit light st buf len).distance
        = (rangeEventHandler timeUnit light st buf len).tof * light
    ∧ (rangeEventHandler timeUnit light st buf len).rangeReady = 1 := by
  unfold rangeEventHandler
  cases h : st.rangeResult <;> simp [h]

theorem rangeEventHandler_sink (timeUnit light : ℚ) (st : State) (buf : List Nat)
    (len a : Nat) (h : st.rangeResult = some a) :
    (rangeEventHandler timeUnit light st buf len).mem a
      = { ranger := rd16 buf MSG_DST_IDX
          rangee := rd16 buf MSG_SRC_IDX
          seq := byteAt buf MSG_SEQ_IDX
          t1 := st.poll_tx_ts
          t2 := rd32 buf RESP_MSG_POLL_RX_TS_IDX
          t3 := rd32 buf RESP_MSG_RESP_TX_TS_IDX
          t4 := st.resp_rx_ts
          cor := st.clockOffsetRatio
          range := (rangeEventHandler timeUnit light st buf len).distance } := by
  unfold rangeEventHandler
  simp [h]

theorem rxReadyHandler_accept (regs : RadioRegs) (st : State) (buf : List Nat)
    (len : Nat) (hq : qualifies st buf len = true) :
    rxReadyHandler regs st buf len
      = { st with
          poll_tx_ts := regs.txTimestamp % 4294967296
          resp_rx_ts := regs.rxTimestamp % 4294967296
          clockOffsetRatio := regs.clockOffset / 67108864
          rangeEvent := st.rangeEvent ++ [(buf, len)] } := by
  simp [rxReadyHandler, hq]

/-! ## The claims -/

/-- C1: in every state with a session in flight (`rangeReady = 0`), for every
target, every result sink and whatever the scheduler would go on to do,
`ssRangeTo` leaves through the rejection exit at once and the state it returns is
the state it was called in, field for field: sequence counter, both frame
buffers, both flags, the stored sink, the timer, and the list of frames handed to
the radio. -/
theorem ssRangeTo_rejects_in_flight (timeUnit light : ℚ) (st : State) (target : Nat)
    (result : ssRangeData) (sched : List (List Activation))
    (h : st.rangeReady = 0) :
    ssRangeTo timeUnit light st target result sched = some (Outcome.rejected, st) := by
  simp [ssRangeTo, h]

theorem ssRangeTo_rejects_in_flight_witness :
    demoFlight.rangeReady = 0
    ∧ ssRangeTo 1 1 demoFlight 0x9ABC (some 1) [[Activation.timer]]
        = some (Outcome.rejected, demoFlight) :=
  ⟨rfl, ssRangeTo_rejects_in_flight 1 1 demoFlight 0x9ABC (some 1)
    [[Activation.timer]] rfl⟩

/-- C2: in every run of the engine that starts from the state `ssInit` leaves,
made of `ssRangeTo` entries, frame arrivals, event deliveries, timer expiries and
returns in any order, the sequence bytes stamped into the Request by the accepted
entries are consecutive modulo 256: each is the previous one plus 1, and 255 is
followed by 0. Refused entries stamp nothing and consume no number, and it makes
no difference whether the session before ended on a response or on the timeout. -/
theorem stamped_consecutive (timeUnit light : ℚ) (name : List Char)
    (serial : List Nat) (mem : Nat → _ssRangeData) (st0 : State) (steps : List Step)
    (h : ssInit name serial (initial mem) = Except.ok st0) :
    List.Chain' (fun a b => b = (a + 1) % 256) (stamped timeUnit light st0 steps) :=
  (stamped_chain timeUnit light (nodeAddr serial) steps st0
    (framed_ssInit name serial mem st0 h)).1

theorem stamped_consecutive_witness :
    ssInit ['D', 'W', '3', '0', '0', '0'] demoSerial (initial demoMem)
        = Except.ok demoInit
    ∧ List.Chain' (fun a b => b = (a + 1) % 256) (stamped 1 1 demoInit demoSteps) :=
  ⟨rfl, stamped_consecutive 1 1 ['D', 'W', '3', '0', '0', '0'] demoSerial demoMem
    demoInit demoSteps rfl⟩

/-- C3: for every serial number (bytes 14 and 15 being bytes), every target
address `T` and every state reachable after `ssInit` in which `ssRangeTo` is
accepted, the one frame the call hands to the radio is the 10 bytes
`0x41, 0x88, seq, 0xCA, 0xDE, T low, T high, serial[15], serial[14], 0xE0`,
`seq` being the sequence byte stamped for this session and the node address being
`(serial[14] << 8) | serial[15]`; the list of frames handed to the radio is the
same when the call returns, whatever the scheduler did meanwhile. -/
theorem request_frame_sent (timeUnit light : ℚ) (serial : List Nat) (st : State)
    (T : Nat) (result : ssRangeData)
    (hreach : Reachable timeUnit light serial st)
    (h14 : byteAt serial 14 < 256) (h15 : byteAt serial 15 < 256)
    (hT : T < 65536) (hacc : st.rangeReady ≠ 0) :
    nodeAddr serial = 256 * byteAt serial 14 + byteAt serial 15
    ∧ (step timeUnit light st (Step.call T result)).sent
        = st.sent ++ [[0x41, 0x88, st.seq, 0xCA, 0xDE, T % 256, T / 256,
            byteAt serial 15, byteAt serial 14, 0xE0]]
    ∧ byteAt (step timeUnit light st (Step.call T result)).ssRangeRequestMsg
        MSG_SEQ_IDX = st.seq
    ∧ ∀ sched o st1, ssRangeTo timeUnit light st T result sched = some (o, st1) →
        st1.sent = st.sent ++ [[0x41, 0x88, st.seq, 0xCA, 0xDE, T % 256, T / 256,
            byteAt serial 15, byteAt serial 14, 0xE0]] := by
  have haddr := nodeAddr_bytes serial h14 h15
  obtain ⟨hreq, _, _⟩ :=
    framed_startRange _ st T result (framed_of_reachable timeUnit light serial st hreach)
  have hlo : nodeAddr serial % 256 = byteAt serial 15 := by omega
  have hhi : nodeAddr serial / 256 % 256 = byteAt serial 14 := by omega
  have hTh : T / 256 % 256 = T / 256 := by omega
  rw [hlo, hhi, hTh] at hreq
  have hsent : (startRange st T result).sent
      = st.sent ++ [[0x41, 0x88, st.seq, 0xCA, 0xDE, T % 256, T / 256,
            byteAt serial 15, byteAt serial 14, 0xE0]] := by
    show st.sent ++ [(startRange st T result).ssRangeRequestMsg.take
      sizeof_ssRangeRequestMsg] = _
    rw [hreq]
    rfl
  refine ⟨haddr, ?_, ?_, ?_⟩
  · simp only [step, hacc, if_false]
    exact hsent
  · simp only [step, hacc, if_false]
    rw [hreq]
    rfl
  · intro sched o st1 h
    simp only [ssRangeTo, hacc, if_false] at h
    cases hw : await timeUnit light (startRange st T result) sched with
    | none => simp [hw] at h
    | some st2 =>
      simp only [hw, Option.some.injEq] at h
      obtain ⟨_, _, _, _, h5⟩ := await_frames timeUnit light sched _ _ hw
      have hst1 : st1 = (finishRange st2).2 := by rw [h]
      rw [hst1, finishRange_sent]
      exact h5.trans hsent

theorem request_frame_sent_witness :
    Reachable 1 1 demoSerial demoInit
    ∧ byteAt demoSerial 14 < 256 ∧ byteAt demoSerial 15 < 256
    ∧ 0x5678 < 65536 ∧ demoInit.rangeReady ≠ 0
    ∧ (nodeAddr demoSerial = 256 * byteAt demoSerial 14 + byteAt demoSerial 15
      ∧ (step 1 1 demoInit (Step.call 0x5678 (some 0))).sent
          = demoInit.sent ++ [[0x41, 0x88, demoInit.seq, 0xCA, 0xDE, 0x5678 % 256,
              0x5678 / 256, byteAt demoSerial 15, byteAt demoSerial 14, 0xE0]]
      ∧ byteAt (step 1 1 demoInit (Step.call 0x5678 (some 0))).ssRangeRequestMsg
          MSG_SEQ_IDX = demoInit.seq
      ∧ ∀ sched o st1, ssRangeTo 1 1 demoInit 0x5678 (some 0) sched = some (o, st1) →
          st1.sent = demoInit.sent ++ [[0x41, 0x88, demoInit.seq, 0xCA, 0xDE,
              0x5678 % 256, 0x5678 / 256, byteAt demoSerial 15, byteAt demoSerial 14,
              0xE0]]) :=
  ⟨reachable_demoInit 1 1, by decide, by decide, by decide, by decide,
    request_frame_sent 1 1 demoSerial demoInit 0x5678 (some 0) (reachable_demoInit 1 1)
      (by decide) (by decide) (by decide) (by decide)⟩

/-- C4: in every state reachable after `ssInit`, both buffers are 10 bytes long and
the expected-response template is the request header with the addresses swapped
and function code `0xE1`: bytes 0, 1, 3, 4 and the sequence byte (offset 2) are
those of the request, the template's destination (offsets 5-6) is the request's
source, which is the node address, the template's source (offsets 7-8) is the
request's destination, byte 9 is `0xE1`; and after an accepted `ssRangeTo` for a
16-bit target `T` that request destination, hence the template source, is `T`. -/
theorem template_mirrors_request (timeUnit light : ℚ) (serial : List Nat)
    (st : State) (hreach : Reachable timeUnit light serial st) :
    st.expectedResponse.length = 10 ∧ st.ssRangeRequestMsg.length = 10
    ∧ byteAt st.expectedResponse 0 = byteAt st.ssRangeRequestMsg 0
    ∧ byteAt st.expectedResponse 1 = byteAt st.ssRangeRequestMsg 1
    ∧ byteAt st.expectedResponse 3 = byteAt st.ssRangeRequestMsg 3
    ∧ byteAt st.expectedResponse 4 = byteAt st.ssRangeRequestMsg 4
    ∧ byteAt st.expectedResponse MSG_SEQ_IDX = byteAt st.ssRangeRequestMsg MSG_SEQ_IDX
    ∧ byteAt st.expectedResponse 5 = byteAt st.ssRangeRequestMsg 7
    ∧ byteAt st.expectedResponse 6 = byteAt st.ssRangeRequestMsg 8
    ∧ byteAt st.expectedResponse 7 = byteAt st.ssRangeRequestMsg 5
    ∧ byteAt st.expectedResponse 8 = byteAt st.ssRangeRequestMsg 6
    ∧ byteAt st.expectedResponse 9 = 0xE1
    ∧ rd16 st.expectedResponse MSG_DST_IDX = nodeAddr serial
    ∧ rd16 st.ssRangeRequestMsg MSG_SRC_IDX = nodeAddr serial
    ∧ rd16 st.expectedResponse MSG_SRC_IDX = rd16 st.ssRangeRequestMsg MSG_DST_IDX
    ∧ ∀ T result, T < 65536 → st.rangeReady ≠ 0 →
        rd16 (step timeUnit light st (Step.call T result)).ssRangeRequestMsg
          MSG_DST_IDX = T
        ∧ rd16 (step timeUnit light st (Step.call T result)).expectedResponse
          MSG_SRC_IDX = T := by
  have hfr := framed_of_reachable timeUnit light serial st hreach
  have hlt : nodeAddr serial < 65536 := Nat.mod_lt _ (by decide)
  have hcomb : nodeAddr serial % 256 + 256 * (nodeAddr serial / 256 % 256)
      = nodeAddr serial := by omega
  obtain ⟨s, d0, d1, hreq, hexp, hra⟩ := hfr
  refine ⟨by simp [hexp], by simp [hreq], by simp [hexp, hreq, byteAt],
    by simp [hexp, hreq, byteAt], by simp [hexp, hreq, byteAt],
    by simp [hexp, hreq, byteAt], by simp [hexp, hreq, byteAt, MSG_SEQ_IDX],
    by simp [hexp, hreq, byteAt], by simp [hexp, hreq, byteAt],
    by simp [hexp, hreq, byteAt], by simp [hexp, hreq, byteAt],
    by simp [hexp, byteAt], ?_, ?_, by simp [hexp, hreq, byteAt, rd16, MSG_SRC_IDX,
      MSG_DST_IDX], ?_⟩
  · rw [hexp]
    simpa [rd16, byteAt, MSG_DST_IDX] using hcomb
  · rw [hreq]
    simpa [rd16, byteAt, MSG_SRC_IDX] using hcomb
  · intro T result hT hacc
    obtain ⟨hreq2, hexp2, _⟩ :=
      framed_startRange _ st T result ⟨s, d0, d1, hreq, hexp, hra⟩
    have hTc : T % 256 + 256 * (T / 256 % 256) = T := by omega
    simp only [step, hacc, if_false]
    rw [hreq2, hexp2]
    exact ⟨by simpa [rd16, byteAt, MSG_DST_IDX] using hTc,
      by simpa [rd16, byteAt, MSG_SRC_IDX] using hTc⟩

theorem template_mirrors_request_witness :
    Reachable 1 1 demoSerial (exec 1 1 demoInit demoSteps)
    ∧ ((exec 1 1 demoInit demoSteps).expectedResponse.length = 10
      ∧ (exec 1 1 demoInit demoSteps).ssRangeRequestMsg.length = 10
      ∧ byteAt (exec 1 1 demoInit demoSteps).expectedResponse 0
          = byteAt (exec 1 1 demoInit demoSteps).ssRangeRequestMsg 0
      ∧ byteAt (exec 1 1 demoInit demoSteps).expectedResponse 1
          = byteAt (exec 1 1 demoInit demoSteps).ssRangeRequestMsg 1
      ∧ byteAt (exec 1 1 demoInit demoSteps).expectedResponse 3
          = byteAt (exec 1 1 demoInit demoSteps).ssRangeRequestMsg 3
      ∧ byteAt (exec 1 1 demoInit demoSteps).expectedResponse 4
          = byteAt (exec 1 1 demoInit demoSteps).ssRangeRequestMsg 4
      ∧ byteAt (exec 1 1 demoInit demoSteps).expectedResponse MSG_SEQ_IDX
          = byteAt (exec 1 1 demoInit demoSteps).ssRangeRequestMsg MSG_SEQ_IDX
      ∧ byteAt (exec 1 1 demoInit demoSteps).expectedResponse 5
          = byteAt (exec 1 1 demoInit demoSteps).ssRangeRequestMsg 7
      ∧ byteAt (exec 1 1 demoInit demoSteps).expectedResponse 6
          = byteAt (exec 1 1 demoInit demoSteps).ssRangeRequestMsg 8
      ∧ byteAt (exec 1 1 demoInit demoSteps).expectedResponse 7
          = byteAt (exec 1 1 demoInit demoSteps).ssRangeRequestMsg 5
      ∧ byteAt (exec 1 1 demoInit demoSteps).expectedResponse 8
          = byteAt (exec 1 1 demoInit demoSteps).ssRangeRequestMsg 6
      ∧ byteAt (exec 1 1 demoInit demoSteps).expectedResponse 9 = 0xE1
      ∧ rd16 (exec 1 1 demoInit demoSteps).expectedResponse MSG_DST_IDX
          = nodeAddr demoSerial
      ∧ rd16 (exec 1 1 demoInit demoSteps).ssRangeRequestMsg MSG_SRC_IDX
          = nodeAddr demoSerial
      ∧ rd16 (exec 1 1 demoInit demoSteps).expectedResponse MSG_SRC_IDX
          = rd16 (exec 1 1 demoInit demoSteps).ssRangeRequestMsg MSG_DST_IDX
      ∧ ∀ T result, T < 65536 → (exec 1 1 demoInit demoSteps).rangeReady ≠ 0 →
          rd16 (step 1 1 (exec 1 1 demoInit demoSteps)
              (Step.call T result)).ssRangeRequestMsg MSG_DST_IDX = T
          ∧ rd16 (step 1 1 (exec 1 1 demoInit demoSteps)
              (Step.call T result)).expectedResponse MSG_SRC_IDX = T) :=
  ⟨reachable_exec 1 1 demoSerial demoSteps demoInit (reachable_demoInit 1 1),
    template_mirrors_request 1 1 demoSerial (exec 1 1 demoInit demoSteps)
      (reachable_exec 1 1 demoSerial demoSteps demoInit (reachable_demoInit 1 1))⟩

/-- C5: for every state, every received buffer and length and whatever the radio
registers hold, `rxReadyHandler` posts the range event for `(buf, len)`, having
stored the radio's two timestamps and the clock offset ratio, exactly when the
first 10 bytes of `buf` are the 10 bytes of the expected-response template, or
`len` is 18 and the 16-bit destination at offsets 5-6 is the radio's address or
`0xFFFF` and `buf[9]` is `0xE1`; otherwise it returns the state untouched. -/
theorem rxReadyHandler_accepts_iff (regs : RadioRegs) (st : State) (buf : List Nat)
    (len : Nat) :
    ((rxReadyHandler regs st buf len).rangeEvent = st.rangeEvent ++ [(buf, len)]
      ↔ (buf.take 10 = st.expectedResponse.take 10
          ∨ (len = 18 ∧ (rd16 buf 5 = st.dwRadioAddr ∨ rd16 buf 5 = 0xFFFF)
              ∧ byteAt buf 9 = 0xE1)))
    ∧ ((buf.take 10 = st.expectedResponse.take 10
          ∨ (len = 18 ∧ (rd16 buf 5 = st.dwRadioAddr ∨ rd16 buf 5 = 0xFFFF)
              ∧ byteAt buf 9 = 0xE1)) →
        rxReadyHandler regs st buf len
          = { st with
              poll_tx_ts := regs.txTimestamp % 4294967296
              resp_rx_ts := regs.rxTimestamp % 4294967296
              clockOffsetRatio := regs.clockOffset / 67108864
              rangeEvent := st.rangeEvent ++ [(buf, len)] })
    ∧ (¬ (buf.take 10 = st.expectedResponse.take 10
          ∨ (len = 18 ∧ (rd16 buf 5 = st.dwRadioAddr ∨ rd16 buf 5 = 0xFFFF)
              ∧ byteAt buf 9 = 0xE1)) →
        rxReadyHandler regs st buf len = st) := by
  rw [← qualifies_iff]
  by_cases hq : qualifies st buf len = true
  · simp [rxReadyHandler, hq]
  · simp [rxReadyHandler, hq]

/-- C6: in every state reachable after `ssInit`, a session awaiting its response
included, a received frame whose byte 9 is `0xE0` is not accepted by
`rxReadyHandler` whatever its length and the radio registers: the handler returns
the state as it was, so no range event is posted for it and the readiness flag,
the timeout flag and every result record stay as they were. -/
theorem request_frame_ignored (timeUnit light : ℚ) (serial : List Nat) (st : State)
    (regs : RadioRegs) (buf : List Nat) (len : Nat)
    (hreach : Reachable timeUnit light serial st) (h9 : byteAt buf 9 = 0xE0) :
    rxReadyHandler regs st buf len = st
    ∧ service timeUnit light st (Activation.rx regs buf len) = st := by
  obtain ⟨s, d0, d1, _, hexp, _⟩ := framed_of_reachable timeUnit light serial st hreach
  have hq : ¬ qualifies st buf len = true := by
    rw [qualifies_iff]
    rintro (h | ⟨_, _, h⟩)
    · have h1 : byteAt (buf.take 10) 9 = byteAt (st.expectedResponse.take 10) 9 := by
        rw [h]
      rw [byteAt_take _ _ _ (by decide), byteAt_take _ _ _ (by decide), h9, hexp] at h1
      simp [byteAt] at h1
    · rw [h9] at h
      exact absurd h (by decide)
  have hr : rxReadyHandler regs st buf len = st := by
    simp [rxReadyHandler, hq]
  exact ⟨hr, hr⟩

theorem request_frame_ignored_witness :
    Reachable 1 1 demoSerial demoFlight
    ∧ byteAt [0x41, 0x88, 0, 0xCA, 0xDE, 0x34, 0x12, 0x78, 0x56, 0xE0] 9 = 0xE0
    ∧ (rxReadyHandler ⟨0x1000, 0x1400, 0⟩ demoFlight
          [0x41, 0x88, 0, 0xCA, 0xDE, 0x34, 0x12, 0x78, 0x56, 0xE0] 10 = demoFlight
      ∧ service 1 1 demoFlight (Activation.rx ⟨0x1000, 0x1400, 0⟩
          [0x41, 0x88, 0, 0xCA, 0xDE, 0x34, 0x12, 0x78, 0x56, 0xE0] 10) = demoFlight) :=
  ⟨Reachable.next demoInit (Step.call 0x5678 (some 0)) (reachable_demoInit 1 1), rfl,
    request_frame_ignored 1 1 demoSerial demoFlight ⟨0x1000, 0x1400, 0⟩
      [0x41, 0x88, 0, 0xCA, 0xDE, 0x34, 0x12, 0x78, 0x56, 0xE0] 10
      (Reachable.next demoInit (Step.call 0x5678 (some 0)) (reachable_demoInit 1 1))
      rfl⟩

/-- C7: what the code does on a frame shorter than the common header. With a
session in flight, a receive buffer whose first 10 bytes are those of the
expected-response template and a reported length of 9, the test of
`rxReadyHandler` succeeds on the `memcmp` alone, which does not look at `len`:
the timestamps are read, the range event is posted for `(buf, 9)`, and its
delivery completes the session. -/
theorem short_frame_accepted :
    qualifies demoFlight demoResponse 9 = true
    ∧ (rxReadyHandler ⟨0x1000, 0x1400, 0⟩ demoFlight demoResponse 9).rangeEvent
        = [(demoResponse, 9)]
    ∧ (rxReadyHandler ⟨0x1000, 0x1400, 0⟩ demoFlight demoResponse 9).poll_tx_ts
        = 0x1000
    ∧ demoFlight.rangeReady = 0
    ∧ (service 1 1 (rxReadyHandler ⟨0x1000, 0x1400, 0⟩ demoFlight demoResponse 9)
        Activation.event).rangeReady = 1 := by
  decide

/-- C8, as stated, fails: with `poll_tx_ts = 0` and `resp_rx_ts = 0x80000000` read
from the radio, the wrapped unsigned difference is `2^31`, but the `rtd_init` the
event handler stores is `-2^31`, a negative number. -/
theorem rtd_init_negative_at_half_range :
    (rxReadyHandler ⟨0, 0x80000000, 0⟩ demoFlight demoResponse 18).poll_tx_ts = 0
    ∧ (rxReadyHandler ⟨0, 0x80000000, 0⟩ demoFlight demoResponse 18).resp_rx_ts
        = 0x80000000
    ∧ ((0x80000000 : Int) - 0) % 4294967296 = 2147483648
    ∧ (rangeEventHandler 1 1
        (rxReadyHandler ⟨0, 0x80000000, 0⟩ demoFlight demoResponse 18)
        demoResponse 18).rtd_init = -2147483648
    ∧ (rangeEventHandler 1 1
        (rxReadyHandler ⟨0, 0x80000000, 0⟩ demoFlight demoResponse 18)
        demoResponse 18).rtd_init < 0 := by
  decide

/-- C8, amended: for every state and every event buffer, when the unsigned
difference `(resp_rx_ts - poll_tx_ts) mod 2^32` is below `2^31`, the `rtd_init`
the event handler computes is that difference, a value in `[0, 2^31)`; when
`(resp_tx_ts - poll_rx_ts) mod 2^32` is below `2^31`, `rtd_resp` is that
difference; and `poll_tx_ts = 0xFFFFFFF0`, `resp_rx_ts = 0x00000010` give
`rtd_init = 0x20`. -/
theorem rtd_unsigned_below_half_range (timeUnit light : ℚ) (st : State)
    (buf : List Nat) (len : Nat) :
    (((st.resp_rx_ts : Int) - st.poll_tx_ts) % 4294967296 < 2147483648 →
      (rangeEventHandler timeUnit light st buf len).rtd_init
          = ((st.resp_rx_ts : Int) - st.poll_tx_ts) % 4294967296
      ∧ 0 ≤ (rangeEventHandler timeUnit light st buf len).rtd_init
      ∧ (rangeEventHandler timeUnit light st buf len).rtd_init < 2147483648)
    ∧ (((rd32 buf RESP_MSG_RESP_TX_TS_IDX : Int) - rd32 buf RESP_MSG_POLL_RX_TS_IDX)
          % 4294967296 < 2147483648 →
      (rangeEventHandler timeUnit light st buf len).rtd_resp
          = ((rd32 buf RESP_MSG_RESP_TX_TS_IDX : Int) - rd32 buf RESP_MSG_POLL_RX_TS_IDX)
              % 4294967296
      ∧ 0 ≤ (rangeEventHandler timeUnit light st buf len).rtd_resp
      ∧ (rangeEventHandler timeUnit light st buf len).rtd_resp < 2147483648)
    ∧ (st.poll_tx_ts = 0xFFFFFFF0 → st.resp_rx_ts = 0x00000010 →
      (rangeEventHandler timeUnit light st buf len).rtd_init = 0x20) := by
  have hinit : (rangeEventHandler timeUnit light st buf len).rtd_init
      = toInt32 (sub32 st.resp_rx_ts st.poll_tx_ts) := by
    unfold rangeEventHandler
    cases h : st.rangeResult <;> simp [h]
  have hresp : (rangeEventHandler timeUnit light st buf len).rtd_resp
      = toInt32 (sub32 (rd32 buf RESP_MSG_RESP_TX_TS_IDX)
          (rd32 buf RESP_MSG_POLL_RX_TS_IDX)) := by
    unfold rangeEventHandler
    cases h : st.rangeResult <;> simp [h]
  refine ⟨?_, ?_, ?_⟩
  · intro h
    rw [hinit, toInt32_sub32 _ _ h]
    omega
  · intro h
    rw [hresp, toInt32_sub32 _ _ h]
    omega
  · intro h1 h2
    rw [hinit, h1, h2]
    decide

theorem rtd_unsigned_below_half_range_witness :
    ((0x10 : Int) - 0xFFFFFFF0) % 4294967296 < 2147483648
    ∧ ((0x1390 : Int) - 0x1050) % 4294967296 < 2147483648
    ∧ (rangeEventHandler 1 1
        (rxReadyHandler ⟨0xFFFFFFF0, 0x10, 0⟩ demoFlight demoResponse 18)
        demoResponse 18).rtd_init = 0x20
    ∧ (rangeEventHandler 1 1
        (rxReadyHandler ⟨0xFFFFFFF0, 0x10, 0⟩ demoFlight demoResponse 18)
        demoResponse 18).rtd_resp = 0x340 :=
  ⟨by decide, by decide,
    ((rtd_unsigned_below_half_range 1 1
      (rxReadyHandler ⟨0xFFFFFFF0, 0x10, 0⟩ demoFlight demoResponse 18)
      demoResponse 18).1 (by decide)).1,
    ((rtd_unsigned_below_half_range 1 1
      (rxReadyHandler ⟨0xFFFFFFF0, 0x10, 0⟩ demoFlight demoResponse 18)
      demoResponse 18).2.1 (by decide)).1⟩

/-- C9: for every state and every frame `rxReadyHandler` accepts, with any radio
timestamps and any raw clock-offset sample, once the range event is handled (the
arithmetic read over the rationals) the clock offset ratio is `sample / 2^26`,
`rtd_init` and `rtd_resp` are the 32-bit differences of the radio's and of the
payload's timestamps, `tof = ((rtd_init - rtd_resp * (1 - clockOffsetRatio)) / 2)
* DWT_TIME_UNITS` and `distance = tof * SPEED_OF_LIGHT`; with sample 0,
`poll_tx_ts = 0x1000`, `resp_rx_ts = 0x1400`, `poll_rx_ts = 0x1050` and
`resp_tx_ts = 0x1390` this gives ratio 0, `rtd_init = 0x400`, `rtd_resp = 0x340`
and `tof = 96 * DWT_TIME_UNITS`. -/
theorem tof_formula (timeUnit light : ℚ) (regs : RadioRegs) (st : State)
    (buf : List Nat) (len : Nat) (hq : qualifies st buf len = true) :
    (receiveAndHandle timeUnit light regs st buf len).clockOffsetRatio
        = regs.clockOffset / 2 ^ 26
    ∧ (receiveAndHandle timeUnit light regs st buf len).rtd_init
        = toInt32 (sub32 (regs.rxTimestamp % 4294967296)
            (regs.txTimestamp % 4294967296))
    ∧ (receiveAndHandle timeUnit light regs st buf len).rtd_resp
        = toInt32 (sub32 (rd32 buf RESP_MSG_RESP_TX_TS_IDX)
            (rd32 buf RESP_MSG_POLL_RX_TS_IDX))
    ∧ (receiveAndHandle timeUnit light regs st buf len).tof
        = ((((receiveAndHandle timeUnit light regs st buf len).rtd_init : ℚ)
            - ((receiveAndHandle timeUnit light regs st buf len).rtd_resp : ℚ)
              * (1 - (receiveAndHandle timeUnit light regs st buf len).clockOffsetRatio))
            / 2) * timeUnit
    ∧ (receiveAndHandle timeUnit light regs st buf len).distance
        = (receiveAndHandle timeUnit light regs st buf len).tof * light
    ∧ (regs.clockOffset = 0 → regs.txTimestamp = 0x1000 → regs.rxTimestamp = 0x1400 →
        rd32 buf RESP_MSG_POLL_RX_TS_IDX = 0x1050 →
        rd32 buf RESP_MSG_RESP_TX_TS_IDX = 0x1390 →
        (receiveAndHandle timeUnit light regs st buf len).clockOffsetRatio = 0
        ∧ (receiveAndHandle timeUnit light regs st buf len).rtd_init = 0x400
        ∧ (receiveAndHandle timeUnit light regs st buf len).rtd_resp = 0x340
        ∧ (receiveAndHandle timeUnit light regs st buf len).tof = 96 * timeUnit) := by
  have hrx : rxReadyHandler regs st buf len
      = { st with
          poll_tx_ts := regs.txTimestamp % 4294967296
          resp_rx_ts := regs.rxTimestamp % 4294967296
          clockOffsetRatio := regs.clockOffset / 67108864
          rangeEvent := st.rangeEvent ++ [(buf, len)] } := by
    simp [rxReadyHandler, hq]
  have hdef : receiveAndHandle timeUnit light regs st buf len
      = rangeEventHandler timeUnit light (rxReadyHandler regs st buf len) buf len := by
    simp [receiveAndHandle, hq]
  obtain ⟨hc, hi, hr, ht, hd, _⟩ :=
    rangeEventHandler_calc timeUnit light (rxReadyHandler regs st buf len) buf len
  rw [← hdef] at hc hi hr ht hd
  rw [hrx] at hc hi ht
  simp only at hc hi ht
  have hpow : (67108864 : ℚ) = 2 ^ 26 := by norm_num
  refine ⟨by rw [hc, hpow], hi, hr, ?_, hd, ?_⟩
  · rw [ht, hi, hr, hc]
  · intro h0 h1 h2 h3 h4
    have e1 : (receiveAndHandle timeUnit light regs st buf len).rtd_init = 0x400 := by
      rw [hi, h1, h2]; decide
    have e2 : (receiveAndHandle timeUnit light regs st buf len).rtd_resp = 0x340 := by
      rw [hr, h3, h4]; decide
    have e0 : (receiveAndHandle timeUnit light regs st buf len).clockOffsetRatio = 0 := by
      rw [hc, h0]; norm_num
    refine ⟨e0, e1, e2, ?_⟩
    rw [ht, ← hi, ← hr, e1, e2, h0]
    norm_num

theorem tof_formula_witness :
    qualifies demoFlight demoResponse 18 = true
    ∧ (receiveAndHandle 1 1 ⟨0x1000, 0x1400, 0⟩ demoFlight demoResponse 18).rtd_init
        = 0x400
    ∧ (receiveAndHandle 1 1 ⟨0x1000, 0x1400, 0⟩ demoFlight demoResponse 18).rtd_resp
        = 0x340
    ∧ (receiveAndHandle 1 1 ⟨0x1000, 0x1400, 0⟩ demoFlight demoResponse 18).tof
        = 96 * 1 :=
  ⟨by decide,
    ((tof_formula 1 1 ⟨0x1000, 0x1400, 0⟩ demoFlight demoResponse 18 (by decide)).2.2.2.2.2
      rfl rfl rfl (by decide) (by decide)).2.1,
    ((tof_formula 1 1 ⟨0x1000, 0x1400, 0⟩ demoFlight demoResponse 18 (by decide)).2.2.2.2.2
      rfl rfl rfl (by decide) (by decide)).2.2.1,
    ((tof_formula 1 1 ⟨0x1000, 0x1400, 0⟩ demoFlight demoResponse 18 (by decide)).2.2.2.2.2
      rfl rfl rfl (by decide) (by decide)).2.2.2⟩

/-- C10: for every state reachable after `ssInit` on a device whose serial number
ends in the bytes of `L`, every 16-bit target `T`, every sink address and every
accepted `ssRangeTo`, stamping the sequence number `s`: when an 18-byte frame
whose first 10 bytes are the expected-response template is received, it is
accepted, and once its range event is handled the sink holds `ranger = L`,
`rangee = T`, `seq = s`, `t1` the radio's transmit timestamp, `t2` and `t3` the
little-endian 32-bit values of frame bytes 10-13 and 14-17, `t4` the radio's
receive timestamp (both as 32-bit values), `cor` the clock offset ratio
`sample / 2^26` and `range` the distance computed from them, `((rtd_init -
rtd_resp * (1 - cor)) / 2) * DWT_TIME_UNITS * SPEED_OF_LIGHT` with `rtd_init` and
`rtd_resp` the signed 32-bit differences `t4 - t1` and `t3 - t2`; and the
readiness flag is set. -/
theorem response_fills_sink (timeUnit light : ℚ) (serial : List Nat) (st0 : State)
    (T a : Nat) (regs : RadioRegs) (buf : List Nat)
    (hreach : Reachable timeUnit light serial st0)
    (h14 : byteAt serial 14 < 256) (h15 : byteAt serial 15 < 256)
    (hT : T < 65536) (hacc : st0.rangeReady ≠ 0) (_hlen : buf.length = 18)
    (hhdr : buf.take 10
      = (step timeUnit light st0 (Step.call T (some a))).expectedResponse) :
    (rxReadyHandler regs (step timeUnit light st0 (Step.call T (some a))) buf 18).rangeEvent
        = (step timeUnit light st0 (Step.call T (some a))).rangeEvent ++ [(buf, 18)]
    ∧ (receiveAndHandle timeUnit light regs
          (step timeUnit light st0 (Step.call T (some a))) buf 18).mem a
        = { ranger := 256 * byteAt serial 14 + byteAt serial 15
            rangee := T
            seq := st0.seq
            t1 := regs.txTimestamp % 4294967296
            t2 := rd32 buf 10
            t3 := rd32 buf 14
            t4 := regs.rxTimestamp % 4294967296
            cor := regs.clockOffset / 2 ^ 26
            range :=
              ((((toInt32 (sub32 (regs.rxTimestamp % 4294967296)
                    (regs.txTimestamp % 4294967296)) : ℚ)
                  - (toInt32 (sub32 (rd32 buf 14) (rd32 buf 10)) : ℚ)
                    * (1 - regs.clockOffset / 2 ^ 26)) / 2) * timeUnit) * light }
    ∧ (receiveAndHandle timeUnit light regs
          (step timeUnit light st0 (Step.call T (some a))) buf 18).rangeReady = 1
    ∧ byteAt (step timeUnit light st0 (Step.call T (some a))).ssRangeRequestMsg
        MSG_SEQ_IDX = st0.seq := by
  have hstep : step timeUnit light st0 (Step.call T (some a))
      = startRange st0 T (some a) := by
    simp [step, hacc]
  rw [hstep] at hhdr ⊢
  have haddr := nodeAddr_bytes serial h14 h15
  obtain ⟨hreq, hexp, _⟩ := framed_startRange _ st0 T (some a)
    (framed_of_reachable timeUnit light serial st0 hreach)
  have hq : qualifies (startRange st0 T (some a)) buf 18 = true := by
    rw [qualifies_iff]
    left
    rw [hhdr, hexp]
    rfl
  have hb : ∀ i, i < 10 → byteAt buf i
      = byteAt (startRange st0 T (some a)).expectedResponse i := by
    intro i hi
    rw [← hhdr, byteAt_take _ _ _ hi]
  have e2 : byteAt buf 2 = st0.seq := by rw [hb 2 (by decide), hexp]; rfl
  have e5 : byteAt buf 5 = nodeAddr serial % 256 := by
    rw [hb 5 (by decide), hexp]; rfl
  have e6 : byteAt buf 6 = nodeAddr serial / 256 % 256 := by
    rw [hb 6 (by decide), hexp]; rfl
  have e7 : byteAt buf 7 = T % 256 := by rw [hb 7 (by decide), hexp]; rfl
  have e8 : byteAt buf 8 = T / 256 % 256 := by rw [hb 8 (by decide), hexp]; rfl
  have hdst : rd16 buf MSG_DST_IDX = 256 * byteAt serial 14 + byteAt serial 15 := by
    show byteAt buf 5 + 256 * byteAt buf 6 = _
    rw [e5, e6]
    omega
  have hsrc : rd16 buf MSG_SRC_IDX = T := by
    show byteAt buf 7 + 256 * byteAt buf 8 = _
    rw [e7, e8]
    omega
  have hseq : byteAt buf MSG_SEQ_IDX = st0.seq := e2
  have hpow : (67108864 : ℚ) = 2 ^ 26 := by norm_num
  have hrx := rxReadyHandler_accept regs (startRange st0 T (some a)) buf 18 hq
  have hres : (rxReadyHandler regs (startRange st0 T (some a)) buf 18).rangeResult
      = some a := by
    rw [hrx]; rfl
  have hdef : receiveAndHandle timeUnit light regs (startRange st0 T (some a)) buf 18
      = rangeEventHandler timeUnit light
          (rxReadyHandler regs (startRange st0 T (some a)) buf 18) buf 18 := by
    simp [receiveAndHandle, hq]
  refine ⟨by rw [hrx], ?_, ?_, ?_⟩
  · obtain ⟨_, _, _, ht, hd, _⟩ := rangeEventHandler_calc timeUnit light
      (rxReadyHandler regs (startRange st0 T (some a)) buf 18) buf 18
    rw [hdef, rangeEventHandler_sink timeUnit light _ buf 18 a hres, hd, ht, hdst, hsrc,
      hseq]
    rw [hrx, hpow]
    rfl
  · rw [hdef]
    exact (rangeEventHandler_calc timeUnit light _ buf 18).2.2.2.2.2
  · rw [hreq]
    rfl

theorem response_fills_sink_witness :
    Reachable 1 1 demoSerial demoSeventh
    ∧ byteAt demoSerial 14 < 256 ∧ byteAt demoSerial 15 < 256
    ∧ 0x5678 < 65536 ∧ demoSeventh.rangeReady ≠ 0 ∧ demoResponse7.length = 18
    ∧ demoResponse7.take 10
        = (step 1 1 demoSeventh (Step.call 0x5678 (some 0))).expectedResponse
    ∧ (receiveAndHandle 1 1 ⟨0x1000, 0x1400, 0⟩
          (step 1 1 demoSeventh (Step.call 0x5678 (some 0))) demoResponse7 18).mem 0
        = { ranger := 0x1234
            rangee := 0x5678
            seq := 0x07
            t1 := 0x1000
            t2 := 0x1050
            t3 := 0x1390
            t4 := 0x1400
            cor := 0
            range := 96 }
    ∧ (receiveAndHandle 1 1 ⟨0x1000, 0x1400, 0⟩
          (step 1 1 demoSeventh (Step.call 0x5678 (some 0))) demoResponse7 18).rangeReady
        = 1 := by
  have hreach : Reachable 1 1 demoSerial demoSeventh :=
    reachable_exec 1 1 demoSerial (timedOutSessions 7) demoInit (reachable_demoInit 1 1)
  have h := response_fills_sink 1 1 demoSerial demoSeventh 0x5678 0 ⟨0x1000, 0x1400, 0⟩
    demoResponse7 hreach (by decide) (by decide) (by decide) (by decide) (by decide)
    (by decide)
  have e1 : toInt32 (sub32 (0x1400 % 4294967296) (0x1000 % 4294967296)) = 0x400 := by
    decide
  have e2 : toInt32 (sub32 0x1390 0x1050) = 0x340 := by decide
  refine ⟨hreach, by decide, by decide, by decide, by decide, by decide, by decide, ?_,
    h.2.2.1⟩
  rw [h.2.1]
  have e3 : 256 * byteAt demoSerial 14 + byteAt demoSerial 15 = 0x1234 := by decide
  have e4 : demoSeventh.seq = 0x07 := by decide
  have e5 : rd32 demoResponse7 10 = 0x1050 := by decide
  have e6 : rd32 demoResponse7 14 = 0x1390 := by decide
  simp only [e5, e6, e1, e2, e3, e4, _ssRangeData.mk.injEq]
  norm_num

/-! ## Auxiliary facts on the wait loop -/

theorem qualifies_congr (st1 st2 : State) (buf : List Nat) (len : Nat)
    (h1 : st1.expectedResponse = st2.expectedResponse)
    (h2 : st1.dwRadioAddr = st2.dwRadioAddr) :
    qualifies st1 buf len = qualifies st2 buf len := by
  simp [qualifies, h1, h2]

theorem service_idle (timeUnit light : ℚ) (st : State) (a : Activation)
    (hq : st.rangeEvent = []) (ha : idle st a = true) :
    service timeUnit light st a = st := by
  cases a with
  | rx regs buf len =>
    have : qualifies st buf len = false := by simpa [idle] using ha
    simp [service, rxReadyHandler, this]
  | event => simp [service, hq]
  | timer => simp [idle] at ha

theorem EventYield_idle (timeUnit light : ℚ) (st : State) (pass : List Activation)
    (hq : st.rangeEvent = []) (hp : ∀ a ∈ pass, idle st a = true) :
    EventYield timeUnit light st pass = st := by
  induction pass with
  | nil => rfl
  | cons a rest ih =>
    have ha := service_idle timeUnit light st a hq (hp a (List.mem_cons_self a rest))
    simp only [EventYield, List.foldl_cons, ha]
    exact ih (fun b hb => hp b (List.mem_cons_of_mem a hb))

theorem rangeTimerHandler_idem (st : State) :
    rangeTimerHandler (rangeTimerHandler st) = rangeTimerHandler st := by
  unfold rangeTimerHandler
  cases h : st.rangeResult <;> simp [h]

theorem rangeTimerHandler_fields (st : State) :
    (rangeTimerHandler st).timeout = 1 ∧ (rangeTimerHandler st).rangeReady = 1
    ∧ (rangeTimerHandler st).rangeTimer = st.rangeTimer
    ∧ (rangeTimerHandler st).rangeEvent = st.rangeEvent
    ∧ (rangeTimerHandler st).rangeResult = st.rangeResult
    ∧ ∀ a, st.rangeResult = some a → (rangeTimerHandler st).mem a = zeroRecord := by
  unfold rangeTimerHandler
  cases h : st.rangeResult <;> simp [h]

theorem service_expired (timeUnit light : ℚ) (st : State) (a : Activation)
    (hq : st.rangeEvent = []) (ht : st.rangeTimer = true)
    (ha : unanswered st a = true) :
    service timeUnit light (rangeTimerHandler st) a = rangeTimerHandler st := by
  obtain ⟨_, _, h3, h4, _, _⟩ := rangeTimerHandler_fields st
  obtain ⟨_, f2, f3, _, _⟩ := rangeTimerHandler_frames st
  cases a with
  | rx regs buf len =>
    have h0 : qualifies st buf len = false := by simpa [unanswered] using ha
    have h1 : qualifies (rangeTimerHandler st) buf len = false := by
      rw [qualifies_congr _ st buf len f2 f3]; exact h0
    simp [service, rxReadyHandler, h1]
  | event => simp [service, h4, hq]
  | timer => simp [service, h3, ht, rangeTimerHandler_idem]

theorem EventYield_expired (timeUnit light : ℚ) (st : State) (pass : List Activation)
    (hq : st.rangeEvent = []) (ht : st.rangeTimer = true)
    (hp : ∀ a ∈ pass, unanswered st a = true) :
    EventYield timeUnit light (rangeTimerHandler st) pass = rangeTimerHandler st := by
  induction pass with
  | nil => rfl
  | cons a rest ih =>
    have ha := service_expired timeUnit light st a hq ht
      (hp a (List.mem_cons_self a rest))
    simp only [EventYield, List.foldl_cons, ha]
    exact ih (fun b hb => hp b (List.mem_cons_of_mem a hb))

theorem EventYield_timer (timeUnit light : ℚ) (st : State) (pass : List Activation)
    (hq : st.rangeEvent = []) (ht : st.rangeTimer = true)
    (hp : ∀ a ∈ pass, unanswered st a = true) (hmem : Activation.timer ∈ pass) :
    EventYield timeUnit light st pass = rangeTimerHandler st := by
  induction pass with
  | nil => cases hmem
  | cons a rest ih =>
    have hrest : ∀ b ∈ rest, unanswered st b = true :=
      fun b hb => hp b (List.mem_cons_of_mem a hb)
    have ha := hp a (List.mem_cons_self a rest)
    cases a with
    | timer =>
      have hs : service timeUnit light st Activation.timer = rangeTimerHandler st := by
        simp [service, ht]
      simp only [EventYield, List.foldl_cons, hs]
      exact EventYield_expired timeUnit light st rest hq ht hrest
    | rx regs buf len =>
      have hs : service timeUnit light st (Activation.rx regs buf len) = st :=
        service_idle timeUnit light st _ hq (by simpa [idle, unanswered] using ha)
      have hm : Activation.timer ∈ rest := by
        rcases List.mem_cons.1 hmem with h | h
        · cases h
        · exact h
      simp only [EventYield, List.foldl_cons, hs]
      exact ih hrest hm
    | event =>
      have hs : service timeUnit light st Activation.event = st :=
        service_idle timeUnit light st _ hq rfl
      have hm : Activation.timer ∈ rest := by
        rcases List.mem_cons.1 hmem with h | h
        · cases h
        · exact h
      simp only [EventYield, List.foldl_cons, hs]
      exact ih hrest hm

theorem await_timer (timeUnit light : ℚ) (st : State)
    (sched : List (List Activation))
    (h0 : st.timeout = 0) (h1 : st.rangeReady = 0)
    (hq : st.rangeEvent = []) (ht : st.rangeTimer = true)
    (hp : ∀ pass ∈ sched, ∀ a ∈ pass, unanswered st a = true)
    (hmem : ∃ pass ∈ sched, Activation.timer ∈ pass) :
    await timeUnit light st sched = some (rangeTimerHandler st) := by
  induction sched with
  | nil =>
    obtain ⟨pass, hpass, _⟩ := hmem
    cases hpass
  | cons pass rest ih =>
    have hwait : ¬ (st.timeout ≠ 0 ∨ st.rangeReady ≠ 0) := by simp [h0, h1]
    have hthis := hp pass (List.mem_cons_self pass rest)
    simp only [await, hwait, if_false]
    by_cases htm : Activation.timer ∈ pass
    · rw [EventYield_timer timeUnit light st pass hq ht hthis htm]
      have hdone : (rangeTimerHandler st).timeout ≠ 0
          ∨ (rangeTimerHandler st).rangeReady ≠ 0 := by
        left; rw [(rangeTimerHandler_fields st).1]; decide
      cases rest <;> simp [await, hdone]
    · have hidle : ∀ a ∈ pass, idle st a = true := by
        intro a ha
        have hu := hthis a ha
        cases a with
        | rx regs buf len => simpa [idle, unanswered] using hu
        | event => rfl
        | timer => exact absurd ha htm
      rw [EventYield_idle timeUnit light st pass hq hidle]
      refine ih (fun p hp2 => hp p (List.mem_cons_of_mem pass hp2)) ?_
      obtain ⟨p, hp1, hp2⟩ := hmem
      rcases List.mem_cons.1 hp1 with h | h
      · rw [h] at hp2; exact absurd hp2 htm
      · exact ⟨p, h, hp2⟩

/-! ## The claims, continued -/

/-- The timeout path when no response is under way: for every accepted `ssRangeTo`
call, entered with no range event pending, during whose wait no received frame is
accepted by `rxReadyHandler` and the timer expires in some scheduler pass, the
call returns through the timeout exit, with the timeout flag set and the timer
stopped, and the record of a supplied sink is all zero at the return. -/
theorem timeout_exit_zeroes_sink (timeUnit light : ℚ) (st : State) (T : Nat)
    (result : ssRangeData) (sched : List (List Activation))
    (hacc : st.rangeReady ≠ 0) (hq : st.rangeEvent = [])
    (hp : ∀ pass ∈ sched, ∀ a ∈ pass, unanswered (startRange st T result) a = true)
    (hmem : ∃ pass ∈ sched, Activation.timer ∈ pass) :
    ∃ st1, ssRangeTo timeUnit light st T result sched = some (Outcome.timedOut, st1)
      ∧ st1.timeout = 1 ∧ st1.rangeReady = 1 ∧ st1.rangeTimer = false
      ∧ ∀ a, result = some a → st1.mem a = zeroRecord := by
  have hw := await_timer timeUnit light (startRange st T result) sched rfl rfl hq rfl
    hp hmem
  obtain ⟨f1, f2, _, _, f5, f6⟩ := rangeTimerHandler_fields (startRange st T result)
  refine ⟨{ rangeTimerHandler (startRange st T result) with rangeTimer := false },
    ?_, f1, f2, rfl, ?_⟩
  · simp only [ssRangeTo, hacc, if_false, hw]
    simp [finishRange, f1]
  · intro a ha
    exact f6 a (by rw [← ha]; rfl)

theorem timeout_exit_zeroes_sink_witness :
    demoUsed.rangeReady ≠ 0 ∧ demoUsed.rangeEvent = []
    ∧ (∀ pass ∈ demoSilence, ∀ a ∈ pass,
        unanswered (startRange demoUsed 0x5678 (some 0)) a = true)
    ∧ (∃ pass ∈ demoSilence, Activation.timer ∈ pass)
    ∧ demoUsed.mem 0 ≠ zeroRecord
    ∧ ∃ st1, ssRangeTo 1 1 demoUsed 0x5678 (some 0) demoSilence
          = some (Outcome.timedOut, st1)
        ∧ st1.timeout = 1 ∧ st1.rangeReady = 1 ∧ st1.rangeTimer = false
        ∧ ∀ a, some 0 = some a → st1.mem a = zeroRecord :=
  ⟨by decide, rfl, by decide,
    ⟨[Activation.event, Activation.timer], by simp [demoSilence], by simp⟩,
    by decide,
    timeout_exit_zeroes_sink 1 1 demoUsed 0x5678 (some 0) demoSilence (by decide) rfl
      (by decide)
      ⟨[Activation.event, Activation.timer], by simp [demoSilence], by simp⟩⟩

/-- C11: what the code does when a range event is still pending at the entry of
`ssRangeTo`. After a session that timed out and returned, its late Response was
accepted and its range event is pending, the engine idle. The next `ssRangeTo`,
with the zeroed sink at address 1, is accepted; no frame is received while it
waits; in one scheduler pass the timer expiry is handled and then the pending
event. The call returns through the timeout exit with the sink holding the
result of the earlier Response, not zeros. When the pending event is handled in a
pass before the one with the timer expiry, the call returns through the success
exit. -/
theorem stale_event_defeats_timeout :
    Reachable 1 1 demoSerial demoStale
    ∧ demoStale.rangeReady = 1 ∧ demoStale.rangeTimer = false
    ∧ demoStale.rangeEvent = [(demoResponse, 18)]
    ∧ demoStale.mem 1 = zeroRecord
    ∧ (∃ st1, ssRangeTo 1 1 demoStale 0x5678 (some 1)
            [[Activation.timer, Activation.event]]
          = some (Outcome.timedOut, st1)
        ∧ st1.timeout = 1
        ∧ (st1.mem 1).ranger = 0x1234 ∧ (st1.mem 1).rangee = 0x5678
        ∧ (st1.mem 1).seq = 0
        ∧ (st1.mem 1).t1 = 0x1000 ∧ (st1.mem 1).t2 = 0x1050
        ∧ (st1.mem 1).t3 = 0x1390 ∧ (st1.mem 1).t4 = 0x1400
        ∧ st1.mem 1 ≠ zeroRecord)
    ∧ ∃ st2, ssRangeTo 1 1 demoStale 0x5678 (some 1)
            [[Activation.event], [Activation.timer]]
          = some (Outcome.ready, st2)
        ∧ st2.timeout = 0 ∧ (st2.mem 1).ranger = 0x1234 :=
  ⟨reachable_exec 1 1 demoSerial _ demoInit (reachable_demoInit 1 1),
    by decide, by decide, by decide, by decide,
    ⟨_, rfl, by decide, by decide, by decide, by decide, by decide, by decide, by decide,
      by decide, by decide⟩,
    ⟨_, rfl, by decide, by decide⟩⟩

theorem await_skips_idle (timeUnit light : ℚ) (st : State)
    (before more : List (List Activation))
    (h0 : st.timeout = 0) (h1 : st.rangeReady = 0) (hq : st.rangeEvent = [])
    (hp : ∀ pass ∈ before, ∀ a ∈ pass, idle st a = true) :
    await timeUnit light st (before ++ more) = await timeUnit light st more := by
  induction before with
  | nil => rfl
  | cons pass rest ih =>
    have hwait : ¬ (st.timeout ≠ 0 ∨ st.rangeReady ≠ 0) := by simp [h0, h1]
    simp only [List.cons_append, await, hwait, if_false]
    rw [EventYield_idle timeUnit light st pass hq (hp pass (List.mem_cons_self _ _))]
    exact ih (fun p hp2 => hp p (List.mem_cons_of_mem pass hp2))

theorem EventYield_cons (timeUnit light : ℚ) (st : State) (a : Activation)
    (q : List Activation) :
    EventYield timeUnit light st (a :: q)
      = EventYield timeUnit light (service timeUnit light st a) q := by
  simp [EventYield]

theorem flagsOk_service (timeUnit light : ℚ) (st : State) (a : Activation)
    (h : FlagsOk st) : FlagsOk (service timeUnit light st a) := by
  cases a with
  | rx regs buf len =>
    by_cases hq : qualifies st buf len = true
    · simpa [service, rxReadyHandler, hq, FlagsOk] using h
    · simpa [service, rxReadyHandler, hq, FlagsOk] using h
  | event =>
    cases hev : st.rangeEvent with
    | nil => simpa [service, hev] using h
    | cons e rest =>
      obtain ⟨buf, len⟩ := e
      simp only [service, hev]
      have hr := (rangeEventHandler_calc timeUnit light
        { st with rangeEvent := rest } buf len).2.2.2.2.2
      exact ⟨fun _ => hr, Or.inr hr⟩
  | timer =>
    by_cases ht : st.rangeTimer = true
    · simp only [service, ht, if_true]
      have hr := (rangeTimerHandler_fields st).2.1
      exact ⟨fun _ => hr, Or.inr hr⟩
    · simpa [service, ht] using h

theorem flagsOk_EventYield (timeUnit light : ℚ) (pass : List Activation) :
    ∀ st, FlagsOk st → FlagsOk (EventYield timeUnit light st pass) := by
  induction pass with
  | nil => intro st h; exact h
  | cons a rest ih =>
    intro st h
    rw [EventYield_cons]
    exact ih _ (flagsOk_service timeUnit light st a h)

theorem flagsOk_await (timeUnit light : ℚ) (sched : List (List Activation)) :
    ∀ st st1, FlagsOk st → await timeUnit light st sched = some st1 →
      FlagsOk st1 ∧ (st1.timeout ≠ 0 ∨ st1.rangeReady ≠ 0) := by
  induction sched with
  | nil =>
    intro st st1 h hw
    simp only [await] at hw
    split at hw
    · cases hw; exact ⟨h, by assumption⟩
    · cases hw
  | cons pass rest ih =>
    intro st st1 h hw
    simp only [await] at hw
    split at hw
    · cases hw; exact ⟨h, by assumption⟩
    · exact ih _ _ (flagsOk_EventYield timeUnit light pass st h) hw

theorem flagsOk_step (timeUnit light : ℚ) (st : State) (s : Step) (h : FlagsOk st) :
    FlagsOk (step timeUnit light st s) := by
  cases s with
  | call target result =>
    by_cases hr : st.rangeReady = 0
    · simpa [step, hr] using h
    · simp only [step, hr, if_false]
      exact ⟨fun hc => absurd rfl hc, Or.inl rfl⟩
  | act a => exact flagsOk_service timeUnit light st a h
  | leave =>
    simp only [step, finishRange]
    split_ifs <;> exact h

theorem flagsOk_of_reachable (timeUnit light : ℚ) (serial : List Nat) (st : State)
    (h : Reachable timeUnit light serial st) : FlagsOk st := by
  induction h with
  | init name mem st0 h0 =>
    unfold ssInit at h0
    split at h0
    · cases h0
    · cases h0
      exact ⟨fun hc => absurd rfl hc, Or.inr rfl⟩
  | next st s _ ih => exact flagsOk_step timeUnit light st s ih

theorem finishRange_fields (st : State) :
    (finishRange st).2.rangeTimer = false
    ∧ (finishRange st).2.rangeReady = st.rangeReady
    ∧ (finishRange st).2.timeout = st.timeout
    ∧ (finishRange st).2.mem = st.mem
    ∧ (finishRange st).1 ≠ Outcome.rejected
    ∧ ((finishRange st).1 = Outcome.timedOut ↔ st.timeout ≠ 0)
    ∧ ((finishRange st).1 = Outcome.ready ↔ st.timeout = 0 ∧ st.rangeReady ≠ 0) := by
  simp only [finishRange]
  split_ifs with h1 h2 <;> simp_all

/-- C13: every accepted `ssRangeTo` call that leaves its wait loop returns through
the timeout exit or the success exit with the timer stopped and the readiness
flag at 1, so that the next `ssRangeTo` entry runs the request prelude and never
takes the rejection exit; and in every state reachable after `ssInit` the timeout
flag being 1 implies the readiness flag being 1. -/
theorem returns_idle (timeUnit light : ℚ) (st : State) (T : Nat)
    (result : ssRangeData) (sched : List (List Activation)) (o : Outcome)
    (st1 : State) (hacc : st.rangeReady ≠ 0)
    (hret : ssRangeTo timeUnit light st T result sched = some (o, st1)) :
    (o = Outcome.timedOut ∨ o = Outcome.ready)
    ∧ st1.rangeTimer = false ∧ st1.rangeReady = 1
    ∧ (∀ T2 r2, step timeUnit light st1 (Step.call T2 r2) = startRange st1 T2 r2)
    ∧ (∀ T2 r2 sched2 st2,
        ssRangeTo timeUnit light st1 T2 r2 sched2 ≠ some (Outcome.rejected, st2))
    ∧ ∀ serial s, Reachable timeUnit light serial s → s.timeout = 1 →
        s.rangeReady = 1 := by
  simp only [ssRangeTo, hacc, if_false] at hret
  cases hw : await timeUnit light (startRange st T result) sched with
  | none => simp [hw] at hret
  | some s2 =>
    simp only [hw, Option.some.injEq] at hret
    have hstart : FlagsOk (startRange st T result) :=
      ⟨fun hc => absurd rfl hc, Or.inl rfl⟩
    obtain ⟨⟨hto, h01⟩, hexit⟩ := flagsOk_await timeUnit light sched _ _ hstart hw
    have hready : s2.rangeReady = 1 := by
      rcases hexit with h | h
      · exact hto h
      · rcases h01 with h0 | h1
        · exact absurd h0 h
        · exact h1
    obtain ⟨f1, f2, _, _, f5, f6, f7⟩ := finishRange_fields s2
    have ho : o = (finishRange s2).1 := by rw [hret]
    have hs : st1 = (finishRange s2).2 := by rw [hret]
    have hr1 : st1.rangeReady = 1 := by rw [hs, f2]; exact hready
    refine ⟨?_, by rw [hs]; exact f1, hr1, ?_, ?_, ?_⟩
    · rw [ho]
      by_cases ht : s2.timeout = 0
      · right; exact f7.2 ⟨ht, by rw [hready]; decide⟩
      · left; exact f6.2 ht
    · intro T2 r2
      simp [step, hr1]
    · intro T2 r2 sched2 st2 hrej
      simp only [ssRangeTo, hr1] at hrej
      cases hw2 : await timeUnit light (startRange st1 T2 r2) sched2 with
      | none => simp [hw2] at hrej
      | some s3 =>
        simp only [hw2] at hrej
        have h3 := (finishRange_fields s3).2.2.2.2.1
        apply h3
        have : finishRange s3 = (Outcome.rejected, st2) := by simpa using hrej
        rw [this]
    · intro serial s hreach ht
      exact (flagsOk_of_reachable timeUnit light serial s hreach).1
        (by rw [ht]; decide)

theorem returns_idle_witness :
    demoUsed.rangeReady ≠ 0
    ∧ ssRangeTo 1 1 demoUsed 0x5678 (some 0) demoSilence
        = some (Outcome.timedOut, demoTimedOut)
    ∧ demoTimedOut.rangeTimer = false ∧ demoTimedOut.rangeReady = 1
    ∧ (∀ T2 r2, step 1 1 demoTimedOut (Step.call T2 r2) = startRange demoTimedOut T2 r2) :=
  ⟨by decide, rfl,
    (returns_idle 1 1 demoUsed 0x5678 (some 0) demoSilence Outcome.timedOut
      demoTimedOut (by decide) rfl).2.1,
    (returns_idle 1 1 demoUsed 0x5678 (some 0) demoSilence Outcome.timedOut
      demoTimedOut (by decide) rfl).2.2.1,
    (returns_idle 1 1 demoUsed 0x5678 (some 0) demoSilence Outcome.timedOut
      demoTimedOut (by decide) rfl).2.2.2.1⟩

/-- C14: what the code does when the timer expiry is serviced before the range
event of a Response accepted in the same scheduler pass. `ssRangeTo` is accepted
with the sink at address 0 (all zero before the call); the Response is accepted,
the timer handler zeroes the sink and sets both flags, then the event handler
writes the result into the sink. The call returns through the timeout exit with
the sink holding the populated result, not zeros. -/
theorem timeout_with_populated_sink :
    demoInit.rangeReady ≠ 0 ∧ demoInit.mem 0 = zeroRecord
    ∧ ∃ st1, ssRangeTo 1 1 demoInit 0x5678 (some 0) demoLate
          = some (Outcome.timedOut, st1)
        ∧ st1.timeout = 1
        ∧ (st1.mem 0).ranger = 0x1234 ∧ (st1.mem 0).rangee = 0x5678
        ∧ (st1.mem 0).t1 = 0x1000 ∧ (st1.mem 0).t2 = 0x1050
        ∧ (st1.mem 0).t3 = 0x1390 ∧ (st1.mem 0).t4 = 0x1400
        ∧ st1.mem 0 ≠ zeroRecord :=
  ⟨by decide, by decide, _, rfl, by decide, by decide, by decide, by decide, by decide,
    by decide, by decide, by decide⟩

/-- C15: for every radio type name, serial number and state, `ssInit` ends in the
fatal error exactly when the name does not begin with the two characters `D`,
`W`; the test is the first thing it does: in the fatal case no state is produced
(no node address assigned, nothing configured), and otherwise the result is the
state with the node address stored in both frame buffers and in the radio. -/
theorem ssInit_fatal_iff (name : List Char) (serial : List Nat) (st : State) :
    ((∃ msg, ssInit name serial st = Except.error msg) ↔ name.take 2 ≠ ['D', 'W'])
    ∧ (name.take 2 ≠ ['D', 'W'] →
        ssInit name serial st = Except.error "ranging needs a range capable radio!")
    ∧ (name.take 2 = ['D', 'W'] →
        ssInit name serial st
          = Except.ok
              { st with
                expectedResponse := wr16 st.expectedResponse MSG_DST_IDX (nodeAddr serial)
                ssRangeRequestMsg :=
                  wr16 st.ssRangeRequestMsg MSG_SRC_IDX (nodeAddr serial)
                dwRadioAddr := nodeAddr serial }) := by
  have key : (name.getD 0 (Char.ofNat 0) == 'D' && name.getD 1 (Char.ofNat 0) == 'W')
      = true ↔ name.take 2 = ['D', 'W'] := by
    rcases name with _ | ⟨c0, _ | ⟨c1, rest⟩⟩
    · simp
    · simp
    · simp
  by_cases h : name.take 2 = ['D', 'W']
  · have hb := key.2 h
    have e : ssInit name serial st
        = Except.ok
            { st with
              expectedResponse := wr16 st.expectedResponse MSG_DST_IDX (nodeAddr serial)
              ssRangeRequestMsg :=
                wr16 st.ssRangeRequestMsg MSG_SRC_IDX (nodeAddr serial)
              dwRadioAddr := nodeAddr serial } := by
      unfold ssInit
      rw [hb]
      rfl
    refine ⟨⟨?_, fun hn => absurd h hn⟩, fun hn => absurd h hn, fun _ => e⟩
    rintro ⟨msg, hm⟩
    rw [e] at hm
    cases hm
  · have hb : (name.getD 0 (Char.ofNat 0) == 'D' && name.getD 1 (Char.ofNat 0) == 'W')
        = false := by
      cases hc : (name.getD 0 (Char.ofNat 0) == 'D' && name.getD 1 (Char.ofNat 0) == 'W')
      · rfl
      · exact absurd (key.1 hc) h
    have e : ssInit name serial st
        = Except.error "ranging needs a range capable radio!" := by
      unfold ssInit
      rw [hb]
      rfl
    exact ⟨⟨fun _ => h, fun _ => ⟨_, e⟩⟩, fun _ => e, fun hn => absurd hn h⟩

theorem ssInit_fatal_iff_witness :
    ['N', 'R', 'F'].take 2 ≠ ['D', 'W']
    ∧ ssInit ['N', 'R', 'F'] demoSerial (initial demoMem)
        = Except.error "ranging needs a range capable radio!" :=
  ⟨by decide,
    (ssInit_fatal_iff ['N', 'R', 'F'] demoSerial (initial demoMem)).2.1 (by decide)⟩

/-- C16: what the code does after a call has returned. `ssRangeTo` with the sink at
address 0 times out and returns, the engine idle, the timer stopped and the sink
all zero; `rangeResult` still holds the sink's address. A timer activation then
changes nothing, but when the late Response arrives it is accepted, and handling
its range event writes the result into the sink of the call that has returned. -/
theorem sink_written_after_return :
    ∃ st1, ssRangeTo 1 1 demoInit 0x5678 (some 0) [[Activation.timer]]
          = some (Outcome.timedOut, st1)
      ∧ st1.rangeReady = 1 ∧ st1.rangeTimer = false ∧ st1.rangeResult = some 0
      ∧ st1.mem 0 = zeroRecord
      ∧ (service 1 1 st1 Activation.timer).mem 0 = zeroRecord
      ∧ qualifies st1 demoResponse 18 = true
      ∧ ((EventYield 1 1 st1
            [Activation.rx ⟨0x1000, 0x1400, 0⟩ demoResponse 18, Activation.event]).mem
              0).ranger = 0x1234
      ∧ ((EventYield 1 1 st1
            [Activation.rx ⟨0x1000, 0x1400, 0⟩ demoResponse 18, Activation.event]).mem
              0).t4 = 0x1400
      ∧ (EventYield 1 1 st1
            [Activation.rx ⟨0x1000, 0x1400, 0⟩ demoResponse 18, Activation.event]).mem 0
          ≠ st1.mem 0 :=
  ⟨_, rfl, by decide, by decide, by decide, by decide, by decide, by decide, by decide,
    by decide, by decide⟩

/-- C17: what the code does on frames whose length is not 18. With a session in
flight, a frame that is only the 10-byte header (`len = 10`) and a 40-byte frame
starting with the same header are both accepted on the `memcmp` alone: their range
events are posted, and the event handler then takes `poll_rx_ts` and `resp_tx_ts`
from offsets 10-17, which for the 10-byte frame lie beyond the received bytes. -/
theorem other_lengths_accepted :
    qualifies demoFlight demoHeader 10 = true
    ∧ (rxReadyHandler ⟨0x1000, 0x1400, 0⟩ demoFlight demoHeader 10).rangeEvent
        = [(demoHeader, 10)]
    ∧ (receiveAndHandle 1 1 ⟨0x1000, 0x1400, 0⟩ demoFlight demoHeader 10).rangeReady = 1
    ∧ qualifies demoFlight (demoResponse ++ List.replicate 22 0) 40 = true
    ∧ (rxReadyHandler ⟨0x1000, 0x1400, 0⟩ demoFlight
        (demoResponse ++ List.replicate 22 0) 40).rangeEvent
        = [(demoResponse ++ List.replicate 22 0, 40)] := by
  decide

/-- C18: what the code does on a Response with the wrong sequence number. The
session in flight has sequence number 0; an 18-byte frame addressed to the node,
with function code `0xE1` and sequence byte 5, does not match the template but is
accepted by the second half of the test, which does not look at the sequence
byte: its range event is posted, and handling it completes the session and
records sequence number 5 in the sink. -/
theorem wrong_seq_accepted :
    byteAt demoFlight.expectedResponse MSG_SEQ_IDX = 0
    ∧ byteAt demoWrongSeq MSG_SEQ_IDX = 5
    ∧ rd16 demoWrongSeq MSG_DST_IDX = demoFlight.dwRadioAddr
    ∧ demoWrongSeq.take 10 ≠ demoFlight.expectedResponse
    ∧ qualifies demoFlight demoWrongSeq 18 = true
    ∧ (rxReadyHandler ⟨0x1000, 0x1400, 0⟩ demoFlight demoWrongSeq 18).rangeEvent
        = [(demoWrongSeq, 18)]
    ∧ demoFlight.rangeReady = 0
    ∧ (receiveAndHandle 1 1 ⟨0x1000, 0x1400, 0⟩ demoFlight demoWrongSeq 18).rangeReady
        = 1
    ∧ ((receiveAndHandle 1 1 ⟨0x1000, 0x1400, 0⟩ demoFlight demoWrongSeq 18).mem 0).seq
        = 5 := by
  decide

/-- C20, as stated, fails: after the first accepted `ssRangeTo` following `ssInit`
the sequence byte in the Request and in the template is 0, while the counter
holds 1. -/
theorem stamped_byte_is_not_counter :
    demoInit.rangeReady ≠ 0
    ∧ byteAt (step 1 1 demoInit (Step.call 0x5678 none)).ssRangeRequestMsg MSG_SEQ_IDX
        = 0
    ∧ byteAt (step 1 1 demoInit (Step.call 0x5678 none)).expectedResponse MSG_SEQ_IDX
        = 0
    ∧ (step 1 1 demoInit (Step.call 0x5678 none)).seq = 1
    ∧ byteAt (step 1 1 demoInit (Step.call 0x5678 none)).ssRangeRequestMsg MSG_SEQ_IDX
        ≠ (step 1 1 demoInit (Step.call 0x5678 none)).seq := by
  decide

/-- C20, amended: for every state reachable after `ssInit` and every accepted
`ssRangeTo`, the value the sequence counter holds at entry is what is stamped
into both the Request frame and the expected-response template, and the counter
is incremented afterwards: right after the stamping, request byte 2 = template
byte 2 = the counter's value before the call, and the counter holds that value
plus 1 modulo 256. -/
theorem stamped_byte_then_increment (timeUnit light : ℚ) (serial : List Nat)
    (st : State) (T : Nat) (result : ssRangeData)
    (hreach : Reachable timeUnit light serial st) (hacc : st.rangeReady ≠ 0) :
    byteAt (step timeUnit light st (Step.call T result)).ssRangeRequestMsg MSG_SEQ_IDX
        = st.seq
    ∧ byteAt (step timeUnit light st (Step.call T result)).expectedResponse MSG_SEQ_IDX
        = st.seq
    ∧ (step timeUnit light st (Step.call T result)).seq = (st.seq + 1) % 256
    ∧ (step timeUnit light st (Step.call T result)).seq
        = (byteAt (step timeUnit light st (Step.call T result)).ssRangeRequestMsg
            MSG_SEQ_IDX + 1) % 256 := by
  have hstep : step timeUnit light st (Step.call T result) = startRange st T result := by
    simp [step, hacc]
  obtain ⟨hreq, hexp, _⟩ := framed_startRange _ st T result
    (framed_of_reachable timeUnit light serial st hreach)
  rw [hstep, hreq, hexp]
  exact ⟨rfl, rfl, rfl, rfl⟩

theorem stamped_byte_then_increment_witness :
    Reachable 1 1 demoSerial demoSeventh ∧ demoSeventh.rangeReady ≠ 0
    ∧ byteAt (step 1 1 demoSeventh (Step.call 0x5678 (some 0))).ssRangeRequestMsg
        MSG_SEQ_IDX = 7
    ∧ byteAt (step 1 1 demoSeventh (Step.call 0x5678 (some 0))).expectedResponse
        MSG_SEQ_IDX = 7
    ∧ (step 1 1 demoSeventh (Step.call 0x5678 (some 0))).seq = (7 + 1) % 256 :=
  ⟨reachable_exec 1 1 demoSerial (timedOutSessions 7) demoInit (reachable_demoInit 1 1),
    by decide,
    (stamped_byte_then_increment 1 1 demoSerial demoSeventh 0x5678 (some 0)
      (reachable_exec 1 1 demoSerial (timedOutSessions 7) demoInit
        (reachable_demoInit 1 1)) (by decide)).1,
    (stamped_byte_then_increment 1 1 demoSerial demoSeventh 0x5678 (some 0)
      (reachable_exec 1 1 demoSerial (timedOutSessions 7) demoInit
        (reachable_demoInit 1 1)) (by decide)).2.1,
    (stamped_byte_then_increment 1 1 demoSerial demoSeventh 0x5678 (some 0)
      (reachable_exec 1 1 demoSerial (timedOutSessions 7) demoInit
        (reachable_demoInit 1 1)) (by decide)).2.2.1⟩

/-! ## The claims, last part -/

/-- C21: for every state, every received buffer and length and whatever the radio
registers hold, `rxReadyHandler` processes nothing inline. It never changes the
two frame buffers, the sequence counter, the computed `tof`, `distance`,
`rtd_init`, `rtd_resp`, the payload timestamps, the recorded sink, the readiness
flag, the timeout flag, the timer, the radio address, the list of sent frames or
any caller's record. For a frame that fails the acceptance test it returns the
state as it was, so no event is posted; for an accepted frame it stores the
radio's two timestamps and the clock offset ratio and appends exactly one range
event, carrying `(buf, len)`, to the pending events. -/
theorem rxReadyHandler_effect (regs : RadioRegs) (st : State) (buf : List Nat)
    (len : Nat) :
    ((rxReadyHandler regs st buf len).expectedResponse = st.expectedResponse
      ∧ (rxReadyHandler regs st buf len).ssRangeRequestMsg = st.ssRangeRequestMsg
      ∧ (rxReadyHandler regs st buf len).seq = st.seq
      ∧ (rxReadyHandler regs st buf len).tof = st.tof
      ∧ (rxReadyHandler regs st buf len).distance = st.distance
      ∧ (rxReadyHandler regs st buf len).rtd_init = st.rtd_init
      ∧ (rxReadyHandler regs st buf len).rtd_resp = st.rtd_resp
      ∧ (rxReadyHandler regs st buf len).poll_rx_ts = st.poll_rx_ts
      ∧ (rxReadyHandler regs st buf len).resp_tx_ts = st.resp_tx_ts
      ∧ (rxReadyHandler regs st buf len).rangeResult = st.rangeResult
      ∧ (rxReadyHandler regs st buf len).rangeReady = st.rangeReady
      ∧ (rxReadyHandler regs st buf len).timeout = st.timeout
      ∧ (rxReadyHandler regs st buf len).rangeTimer = st.rangeTimer
      ∧ (rxReadyHandler regs st buf len).dwRadioAddr = st.dwRadioAddr
      ∧ (rxReadyHandler regs st buf len).sent = st.sent
      ∧ (rxReadyHandler regs st buf len).mem = st.mem)
    ∧ (qualifies st buf len = false → rxReadyHandler regs st buf len = st)
    ∧ (qualifies st buf len = true →
        (rxReadyHandler regs st buf len).rangeEvent = st.rangeEvent ++ [(buf, len)]
        ∧ (rxReadyHandler regs st buf len).rangeEvent.length
            = st.rangeEvent.length + 1
        ∧ (rxReadyHandler regs st buf len).poll_tx_ts = regs.txTimestamp % 4294967296
        ∧ (rxReadyHandler regs st buf len).resp_rx_ts = regs.rxTimestamp % 4294967296
        ∧ (rxReadyHandler regs st buf len).clockOffsetRatio
            = regs.clockOffset / 67108864) := by
  cases hq : qualifies st buf len
  · simp [rxReadyHandler, hq]
  · simp [rxReadyHandler, hq]

theorem rxReadyHandler_effect_witness :
    qualifies demoFlight demoRequest 10 = false
    ∧ rxReadyHandler ⟨0x1000, 0x1400, 0⟩ demoFlight demoRequest 10 = demoFlight
    ∧ qualifies demoFlight demoResponse 18 = true
    ∧ (rxReadyHandler ⟨0x1000, 0x1400, 0⟩ demoFlight demoResponse 18).rangeEvent
        = demoFlight.rangeEvent ++ [(demoResponse, 18)]
    ∧ (rxReadyHandler ⟨0x1000, 0x1400, 0⟩ demoFlight demoResponse 18).rangeReady
        = demoFlight.rangeReady
    ∧ (rxReadyHandler ⟨0x1000, 0x1400, 0⟩ demoFlight demoResponse 18).mem
        = demoFlight.mem :=
  ⟨by decide,
    (rxReadyHandler_effect ⟨0x1000, 0x1400, 0⟩ demoFlight demoRequest 10).2.1 (by decide),
    by decide,
    ((rxReadyHandler_effect ⟨0x1000, 0x1400, 0⟩ demoFlight demoResponse 18).2.2
      (by decide)).1,
    (rxReadyHandler_effect ⟨0x1000, 0x1400, 0⟩ demoFlight demoResponse 18).1.2.2.2.2.2.2.2.2.2.2.1,
    (rxReadyHandler_effect ⟨0x1000, 0x1400, 0⟩ demoFlight demoResponse 18).1.2.2.2.2.2.2.2.2.2.2.2.2.2.2.2⟩

/-- C22: the round-trip delays are signed 32-bit values. For every state and every
event buffer, with `d` the unsigned difference `(resp_rx_ts - poll_tx_ts) mod
2^32`, the `rtd_init` that `rangeEventHandler` stores is `d` when `d < 2^31` and
`d - 2^32`, a negative number, when `d >= 2^31`; likewise `rtd_resp` for
`(resp_tx_ts - poll_rx_ts) mod 2^32` of the payload timestamps; both lie in
`[-2^31, 2^31)`, and these signed values are the ones the time-of-flight formula
uses. -/
theorem rtd_signed_reading (timeUnit light : ℚ) (st : State) (buf : List Nat)
    (len : Nat) :
    ((((st.resp_rx_ts : Int) - st.poll_tx_ts) % 4294967296 < 2147483648 →
        (rangeEventHandler timeUnit light st buf len).rtd_init
          = ((st.resp_rx_ts : Int) - st.poll_tx_ts) % 4294967296)
      ∧ (2147483648 ≤ ((st.resp_rx_ts : Int) - st.poll_tx_ts) % 4294967296 →
        (rangeEventHandler timeUnit light st buf len).rtd_init
          = ((st.resp_rx_ts : Int) - st.poll_tx_ts) % 4294967296 - 4294967296
        ∧ (rangeEventHandler timeUnit light st buf len).rtd_init < 0))
    ∧ ((((rd32 buf RESP_MSG_RESP_TX_TS_IDX : Int) - rd32 buf RESP_MSG_POLL_RX_TS_IDX)
          % 4294967296 < 2147483648 →
        (rangeEventHandler timeUnit light st buf len).rtd_resp
          = ((rd32 buf RESP_MSG_RESP_TX_TS_IDX : Int) - rd32 buf RESP_MSG_POLL_RX_TS_IDX)
              % 4294967296)
      ∧ (2147483648 ≤ ((rd32 buf RESP_MSG_RESP_TX_TS_IDX : Int)
            - rd32 buf RESP_MSG_POLL_RX_TS_IDX) % 4294967296 →
        (rangeEventHandler timeUnit light st buf len).rtd_resp
          = ((rd32 buf RESP_MSG_RESP_TX_TS_IDX : Int) - rd32 buf RESP_MSG_POLL_RX_TS_IDX)
              % 4294967296 - 4294967296
        ∧ (rangeEventHandler timeUnit light st buf len).rtd_resp < 0))
    ∧ (-2147483648 ≤ (rangeEventHandler timeUnit light st buf len).rtd_init
      ∧ (rangeEventHandler timeUnit light st buf len).rtd_init < 2147483648
      ∧ -2147483648 ≤ (rangeEventHandler timeUnit light st buf len).rtd_resp
      ∧ (rangeEventHandler timeUnit light st buf len).rtd_resp < 2147483648)
    ∧ (rangeEventHandler timeUnit light st buf len).tof
        = ((((rangeEventHandler timeUnit light st buf len).rtd_init : ℚ)
            - ((rangeEventHandler timeUnit light st buf len).rtd_resp : ℚ)
              * (1 - st.clockOffsetRatio)) / 2) * timeUnit := by
  obtain ⟨_, hi, hr, ht, _, _⟩ := rangeEventHandler_calc timeUnit light st buf len
  have key : ∀ a b : Nat,
      (((a : Int) - b) % 4294967296 < 2147483648 →
        toInt32 (sub32 a b) = ((a : Int) - b) % 4294967296)
      ∧ (2147483648 ≤ ((a : Int) - b) % 4294967296 →
        toInt32 (sub32 a b) = ((a : Int) - b) % 4294967296 - 4294967296
        ∧ toInt32 (sub32 a b) < 0)
      ∧ -2147483648 ≤ toInt32 (sub32 a b) ∧ toInt32 (sub32 a b) < 2147483648 := by
    intro a b
    unfold toInt32 sub32
    refine ⟨?_, ?_, ?_, ?_⟩
    · intro h; split <;> omega
    · intro h; split <;> omega
    · split <;> omega
    · split <;> omega
  obtain ⟨k1, k2, k3, k4⟩ := key st.resp_rx_ts st.poll_tx_ts
  obtain ⟨m1, m2, m3, m4⟩ :=
    key (rd32 buf RESP_MSG_RESP_TX_TS_IDX) (rd32 buf RESP_MSG_POLL_RX_TS_IDX)
  rw [hi, hr, ht]
  exact ⟨⟨k1, k2⟩, ⟨m1, m2⟩, ⟨k3, k4, m3, m4⟩, rfl⟩

theorem rtd_signed_reading_witness :
    (2147483648 : Int) ≤ ((0x80000000 : Int) - 0) % 4294967296
    ∧ (rangeEventHandler 1 1
        (rxReadyHandler ⟨0, 0x80000000, 0⟩ demoFlight demoSecond 18)
        demoSecond 18).rtd_init = 2147483648 - 4294967296
    ∧ ((0x2390 : Int) - 0x2050) % 4294967296 < 2147483648
    ∧ (rangeEventHandler 1 1
        (rxReadyHandler ⟨0, 0x80000000, 0⟩ demoFlight demoSecond 18)
        demoSecond 18).rtd_resp = 0x340 :=
  ⟨by decide,
    ((rtd_signed_reading 1 1
      (rxReadyHandler ⟨0, 0x80000000, 0⟩ demoFlight demoSecond 18)
      demoSecond 18).1.2 (by decide)).1,
    by decide,
    (rtd_signed_reading 1 1
      (rxReadyHandler ⟨0, 0x80000000, 0⟩ demoFlight demoSecond 18)
      demoSecond 18).2.1.1 (by decide)⟩

/-! ## Auxiliary facts on waits without a timer expiry -/

end SsRanger
